import Mathlib

/-!
# Verification of the BusquedaSemantica synchronization and retrieval core

Shallow embedding, in Lean 4, of the pure logic of the repository
`BusquedaSemantica_v2`: the numeric-id derivation used by the Qdrant
vector-store manager (`src/qdrant_manager.py`), the pydantic model
normalization (`src/models.py`), the MongoDB manager logic
(`src/database.py`), the hybrid-search fusion and per-document
processing control flow (`src/busqueda_semantica.py`), and the batch
processor (`src/batch_processor.py`).

Machine integers are modelled as `Nat` with explicit reduction
`% 2 ^ 32` where the Python code truncates (the MD5 round arithmetic);
Python floats that only ever carry decimal literals and sums or
products of them are modelled as `Rat`; Python exceptions are modelled
with `Except` / `Option`; Python dicts that the code builds key by key
are modelled as association lists in insertion order, which is the
iteration order of a Python dict.
-/

set_option maxRecDepth 100000

/-- Fuel-driven worker for `chunksOf`: structural recursion on the fuel so
that the kernel can evaluate it; the fuel is always instantiated with the
length of the list, which suffices because each step drops at least one
element when `0 < bs`. -/
def chunksOfF : Nat → Nat → List α → List (List α)
  | 0, _, _ => []
  | _, _, [] => []
  | fuel + 1, bs, x :: xs => ((x :: xs).take bs) :: chunksOfF fuel bs ((x :: xs).drop bs)

/-- Partition a list into consecutive chunks of size `bs`, mirroring the
Python pattern `for i in range(0, len(l), bs): chunk = l[i:i+bs]` used both
by `BatchProcessor.procesar_coleccion_completa` and by the MD5 block loop.
For `bs = 0` Python `range` raises `ValueError`; that case is modelled as
producing no chunks and every theorem about chunked runs assumes `0 < bs`. -/
def chunksOf (bs : Nat) (l : List α) : List (List α) :=
  if bs = 0 then [] else chunksOfF l.length bs l

namespace Md5

/-!
## MD5 (RFC 1321)

`QdrantManager` derives the numeric Qdrant point id from a record's
`id_hash` string through `hashlib.md5`; to settle claims about that
derivation the digest itself is embedded here, over byte lists, with
32-bit words as `Nat` reduced modulo `2 ^ 32`.
-/

/-- The modulus of all MD5 word arithmetic, two to the 32. -/
def w32 : Nat := 4294967296

/-- The mask giving bitwise complement within 32 bits. -/
def mask32 : Nat := 4294967295

/-- Addition reduced to 32 bits. -/
def add32 (a b : Nat) : Nat := (a + b) % w32

/-- Left rotation within 32 bits of `x` (assumed `< 2 ^ 32`) by `s` bits. -/
def rotl32 (x s : Nat) : Nat := ((x <<< s) ||| (x >>> (32 - s))) &&& mask32

/-- Bitwise complement within 32 bits. -/
def not32 (x : Nat) : Nat := x ^^^ mask32

/-- The 64 MD5 round constants `K[i] = floor(2^32 * |sin(i+1)|)`. -/
def K : List Nat :=
  [0xd76aa478, 0xe8c7b756, 0x242070db, 0xc1bdceee,
   0xf57c0faf, 0x4787c62a, 0xa8304613, 0xfd469501,
   0x698098d8, 0x8b44f7af, 0xffff5bb1, 0x895cd7be,
   0x6b901122, 0xfd987193, 0xa679438e, 0x49b40821,
   0xf61e2562, 0xc040b340, 0x265e5a51, 0xe9b6c7aa,
   0xd62f105d, 0x02441453, 0xd8a1e681, 0xe7d3fbc8,
   0x21e1cde6, 0xc33707d6, 0xf4d50d87, 0x455a14ed,
   0xa9e3e905, 0xfcefa3f8, 0x676f02d9, 0x8d2a4c8a,
   0xfffa3942, 0x8771f681, 0x6d9d6122, 0xfde5380c,
   0xa4beea44, 0x4bdecfa9, 0xf6bb4b60, 0xbebfbc70,
   0x289b7ec6, 0xeaa127fa, 0xd4ef3085, 0x04881d05,
   0xd9d4d039, 0xe6db99e5, 0x1fa27cf8, 0xc4ac5665,
   0xf4292244, 0x432aff97, 0xab9423a7, 0xfc93a039,
   0x655b59c3, 0x8f0ccc92, 0xffeff47d, 0x85845dd1,
   0x6fa87e4f, 0xfe2ce6e0, 0xa3014314, 0x4e0811a1,
   0xf7537e82, 0xbd3af235, 0x2ad7d2bb, 0xeb86d391]

/-- The 64 per-round left-rotation amounts. -/
def S : List Nat :=
  [7, 12, 17, 22, 7, 12, 17, 22, 7, 12, 17, 22, 7, 12, 17, 22,
   5, 9, 14, 20, 5, 9, 14, 20, 5, 9, 14, 20, 5, 9, 14, 20,
   4, 11, 16, 23, 4, 11, 16, 23, 4, 11, 16, 23, 4, 11, 16, 23,
   6, 10, 15, 21, 6, 10, 15, 21, 6, 10, 15, 21, 6, 10, 15, 21]

/-- The nonlinear round function of round `i` applied to words `b c d`. -/
def roundF (i b c d : Nat) : Nat :=
  if i < 16 then (b &&& c) ||| (not32 b &&& d)
  else if i < 32 then (d &&& b) ||| (not32 d &&& c)
  else if i < 48 then b ^^^ c ^^^ d
  else c ^^^ (b ||| not32 d)

/-- The message-word index consumed by round `i`. -/
def gIdx (i : Nat) : Nat :=
  if i < 16 then i
  else if i < 32 then (5 * i + 1) % 16
  else if i < 48 then (3 * i + 5) % 16
  else (7 * i) % 16

/-- Render a number as a given count of little-endian bytes. -/
def leBytes : Nat → Nat → List Nat
  | 0, _ => []
  | k + 1, n => (n % 256) :: leBytes k (n / 256)

/-- MD5 padding: append `0x80`, zero bytes up to 56 mod 64, then the
original bit length as 8 little-endian bytes. -/
def padMessage (msg : List Nat) : List Nat :=
  let len := msg.length
  let zeros := (120 - ((len + 1) % 64)) % 64
  msg ++ [128] ++ List.replicate zeros 0 ++ leBytes 8 ((len * 8) % 18446744073709551616)

/-- The `i`-th little-endian 32-bit word of a 64-byte block. -/
def wordAt (block : List Nat) (i : Nat) : Nat :=
  block.getD (4 * i) 0 + 256 * block.getD (4 * i + 1) 0 +
    65536 * block.getD (4 * i + 2) 0 + 16777216 * block.getD (4 * i + 3) 0

/-- One MD5 round: state `(a, b, c, d)` through round `i` of a block. -/
def mdStep (block : List Nat) (st : Nat × Nat × Nat × Nat) (i : Nat) : Nat × Nat × Nat × Nat :=
  let a := st.1
  let b := st.2.1
  let c := st.2.2.1
  let d := st.2.2.2
  let fv := add32 (add32 (add32 (roundF i b c d) a) (K.getD i 0)) (wordAt block (gIdx i))
  (d, add32 b (rotl32 fv (S.getD i 0)), b, c)

/-- Process one 64-byte block: 64 rounds, then add the incoming state. -/
def processBlock (st : Nat × Nat × Nat × Nat) (block : List Nat) : Nat × Nat × Nat × Nat :=
  let r := (List.range 64).foldl (mdStep block) st
  (add32 st.1 r.1, add32 st.2.1 r.2.1, add32 st.2.2.1 r.2.2.1, add32 st.2.2.2 r.2.2.2)

/-- The four MD5 state words of a byte message. -/
def md5Words (msg : List Nat) : Nat × Nat × Nat × Nat :=
  (chunksOf 64 (padMessage msg)).foldl processBlock (0x67452301, 0xefcdab89, 0x98badcfe, 0x10325476)

/-- Lowercase hex digit of `n < 16`. -/
def hexDigit (n : Nat) : Char :=
  if n < 10 then Char.ofNat (48 + n) else Char.ofNat (87 + n)

/-- Two lowercase hex digits of a byte. -/
def byteHex (b : Nat) : List Char := [hexDigit (b / 16), hexDigit (b % 16)]

/-- A 32-bit word rendered as 8 hex digits, little-endian byte order,
as MD5 digests are conventionally displayed. -/
def wordLEHex (w : Nat) : List Char :=
  byteHex (w % 256) ++ byteHex (w / 256 % 256) ++ byteHex (w / 65536 % 256) ++
    byteHex (w / 16777216 % 256)

/-- The 32-character lowercase hex digest, as Python
`hashlib.md5(x).hexdigest()` returns it. -/
def md5Hex (msg : List Nat) : String :=
  let r := md5Words msg
  String.mk (wordLEHex r.1 ++ wordLEHex r.2.1 ++ wordLEHex r.2.2.1 ++ wordLEHex r.2.2.2)

end Md5

/-- The UTF-8 bytes of a string, restricted to the ASCII strings the code
actually hashes (hex digests and ObjectId strings), where UTF-8 is the
identity on code points; mirrors Python `s.encode()`. -/
def strBytes (s : String) : List Nat := s.data.map Char.toNat

/-- Value of one hex digit character, as Python `int(c, 16)` reads it. -/
def hexVal (c : Char) : Nat :=
  if 97 ≤ c.toNat then c.toNat - 87
  else if 65 ≤ c.toNat then c.toNat - 55
  else c.toNat - 48

/-- Python `int(s, 16)` on a lowercase hex string. -/
def hexToNat (s : String) : Nat := s.data.foldl (fun a c => a * 16 + hexVal c) 0


namespace QdrantManager

/-!
## Qdrant numeric point ids (`src/qdrant_manager.py`)

Each of `insertar_vector` (lines 120-124), `obtener_por_id` (lines
276-279), `actualizar_vector` (lines 308-311) and `eliminar_vector`
(lines 340-342) converts the record key `id_hash` to the numeric id of
the Qdrant point. The first three compute
`int(hashlib.md5(key.encode()).hexdigest()[:8], 16)`; `eliminar_vector`
computes `int(hashlib.md5(key.encode()).hexdigest(), 16)` without the
`[:8]` truncation.
-/

/-- Numeric id derived by `QdrantManager.insertar_vector`:
`int(hashlib.md5(documento.id_hash.encode()).hexdigest()[:8], 16)`. -/
def idNumericoInsertar (id_hash : String) : Nat :=
  hexToNat (String.mk ((Md5.md5Hex (strBytes id_hash)).data.take 8))

/-- Numeric id derived by `QdrantManager.obtener_por_id`:
`int(hashlib.md5(doc_id.encode()).hexdigest()[:8], 16)`. -/
def idNumericoObtener (doc_id : String) : Nat :=
  hexToNat (String.mk ((Md5.md5Hex (strBytes doc_id)).data.take 8))

/-- Numeric id derived by `QdrantManager.actualizar_vector`:
`int(hashlib.md5(doc_id.encode()).hexdigest()[:8], 16)`. -/
def idNumericoActualizar (doc_id : String) : Nat :=
  hexToNat (String.mk ((Md5.md5Hex (strBytes doc_id)).data.take 8))

/-- Numeric id derived by `QdrantManager.eliminar_vector`:
`int(hashlib.md5(doc_id.encode()).hexdigest(), 16)` - the full 128-bit
digest, with no `[:8]` truncation. -/
def idNumericoEliminar (doc_id : String) : Nat :=
  hexToNat (Md5.md5Hex (strBytes doc_id))

end QdrantManager


/-!
## Data model (`src/models.py`)
-/

/-- A Python value that can reach the `coordenadas` field validator of
`ImagenDocumento` (declared `Optional[Union[Dict[str, Any], List[float]]]`):
`None`, a list of floats, a dict (coordinate numbers under string keys), or
any other shape. Floats here are only stored and copied, never computed
with, so they are modelled as rationals. -/
inductive PyCoord where
  | cnone : PyCoord
  | clist (l : List Rat) : PyCoord
  | cdict (d : List (String × Rat)) : PyCoord
  | cother : PyCoord
deriving DecidableEq, Repr

/-- The pydantic field validator `ImagenDocumento.validar_coordenadas`
(`src/models.py` lines 61-74): `None` stays `None`; a list with at least
two elements becomes `{"lat": v[0], "lon": v[1]}`; a dict is kept as is;
anything else (including a list with fewer than two elements) becomes
`None`. -/
def validar_coordenadas : PyCoord → PyCoord
  | .cnone => .cnone
  | .clist (a :: b :: _) => .cdict [("lat", a), ("lon", b)]
  | .cdict d => .cdict d
  | _ => .cnone

/-- The record model `ImagenDocumento` (`src/models.py` lines 9-59) with
the fields the verified operations read; `coordenadas` holds the value
produced by the field validator. -/
structure ImagenDocumento where
  id : Option String
  id_hash : Option String
  hash_sha512 : String
  nombre : String
  ruta : String
  ruta_alternativa : Option String
  ancho : Int
  alto : Int
  peso : Rat
  fecha_creacion_dia : String
  fecha_creacion_mes : String
  fecha_creacion_anio : String
  fecha_creacion_hora : String
  fecha_creacion_minuto : String
  fecha_procesamiento_dia : String
  fecha_procesamiento_mes : String
  fecha_procesamiento_anio : String
  fecha_procesamiento_hora : String
  fecha_procesamiento_minuto : String
  coordenadas : PyCoord
  barrio : String
  calle : String
  ciudad : String
  cp : String
  pais : String
  objeto_procesado : Bool
  objetos : List String
  personas : List String
  embedding : Option (List Rat)
  descripcion_semantica : Option String
  qdrant : Bool
deriving DecidableEq, Repr

/-- Method `get_fecha_creacion`: the creation date formatted
`dia/mes/anio hora:minuto`. -/
def ImagenDocumento.get_fecha_creacion (d : ImagenDocumento) : String :=
  d.fecha_creacion_dia ++ "/" ++ d.fecha_creacion_mes ++ "/" ++ d.fecha_creacion_anio ++
    " " ++ d.fecha_creacion_hora ++ ":" ++ d.fecha_creacion_minuto

/-- Method `get_fecha_procesamiento`: the processing date formatted
`dia/mes/anio hora:minuto`. -/
def ImagenDocumento.get_fecha_procesamiento (d : ImagenDocumento) : String :=
  d.fecha_procesamiento_dia ++ "/" ++ d.fecha_procesamiento_mes ++ "/" ++
    d.fecha_procesamiento_anio ++ " " ++ d.fecha_procesamiento_hora ++ ":" ++
    d.fecha_procesamiento_minuto

namespace QdrantManager

/-!
## Vector entries (`src/qdrant_manager.py`)

`insertar_vector` (lines 107-197) builds a `PointStruct` whose payload
dict copies every field of the record; `actualizar_vector` (lines
298-330) builds a `PointStruct` whose payload dict holds only
`descripcion_semantica`. Both are written with `client.upsert`, which
replaces the point (vector and payload) stored under the numeric id.
-/

/-- A value in the payload dict of a Qdrant point. -/
inductive PVal where
  | vnull : PVal
  | vstr (s : String) : PVal
  | vint (n : Int) : PVal
  | vrat (q : Rat) : PVal
  | vbool (b : Bool) : PVal
  | vlist (l : List String) : PVal
  | vrats (l : List Rat) : PVal
  | vcoord (c : PyCoord) : PVal
deriving DecidableEq, Repr

/-- An optional string attribute as a payload value (`None` serializes to
null). -/
def optStr : Option String → PVal
  | none => .vnull
  | some s => .vstr s

/-- A Qdrant point: numeric id, embedding vector, payload dict (an
association list in insertion order). -/
structure QdrantPoint where
  pid : Nat
  vector : List Rat
  payload : List (String × PVal)
deriving DecidableEq, Repr

/-- Value stored under key `k` of a payload dict. -/
def payloadGet (p : List (String × PVal)) (k : String) : Option PVal :=
  (p.find? (fun kv => kv.1 = k)).map (fun kv => kv.2)

/-- The payload dict built by `insertar_vector` (lines 127-177): a
denormalized copy of every field of the record, plus the semantic
description and the embedding. -/
def insertarPayload (documento : ImagenDocumento) (embedding : List Rat)
    (descripcion : String) : List (String × PVal) :=
  [("id", optStr documento.id),
   ("id_hash", optStr documento.id_hash),
   ("hash_sha512", .vstr documento.hash_sha512),
   ("nombre", .vstr documento.nombre),
   ("ruta", .vstr documento.ruta),
   ("ruta_alternativa", optStr documento.ruta_alternativa),
   ("ancho", .vint documento.ancho),
   ("alto", .vint documento.alto),
   ("peso", .vrat documento.peso),
   ("fecha_creacion", .vstr documento.get_fecha_creacion),
   ("fecha_creacion_dia", .vstr documento.fecha_creacion_dia),
   ("fecha_creacion_mes", .vstr documento.fecha_creacion_mes),
   ("fecha_creacion_anio", .vstr documento.fecha_creacion_anio),
   ("fecha_creacion_hora", .vstr documento.fecha_creacion_hora),
   ("fecha_creacion_minuto", .vstr documento.fecha_creacion_minuto),
   ("fecha_procesamiento", .vstr documento.get_fecha_procesamiento),
   ("fecha_procesamiento_dia", .vstr documento.fecha_procesamiento_dia),
   ("fecha_procesamiento_mes", .vstr documento.fecha_procesamiento_mes),
   ("fecha_procesamiento_anio", .vstr documento.fecha_procesamiento_anio),
   ("fecha_procesamiento_hora", .vstr documento.fecha_procesamiento_hora),
   ("fecha_procesamiento_minuto", .vstr documento.fecha_procesamiento_minuto),
   ("coordenadas", .vcoord documento.coordenadas),
   ("barrio", .vstr documento.barrio),
   ("calle", .vstr documento.calle),
   ("ciudad", .vstr documento.ciudad),
   ("cp", .vstr documento.cp),
   ("pais", .vstr documento.pais),
   ("objeto_procesado", .vbool documento.objeto_procesado),
   ("objetos", .vlist documento.objetos),
   ("personas", .vlist documento.personas),
   ("descripcion_semantica", .vstr descripcion),
   ("embedding", .vrats embedding)]

/-- The operation `insertar_vector` as the point it upserts. Returns
`none` when `documento.id_hash` is `None`, where the Python code would
raise on `None.encode()`. -/
def insertar_vector (documento : ImagenDocumento) (embedding : List Rat)
    (descripcion : String) : Option QdrantPoint :=
  match documento.id_hash with
  | none => none
  | some h => some ⟨idNumericoInsertar h, embedding, insertarPayload documento embedding descripcion⟩

/-- The payload dict built by `actualizar_vector` (line 317): only the
semantic description. -/
def actualizarPayload (descripcion : String) : List (String × PVal) :=
  [("descripcion_semantica", .vstr descripcion)]

/-- The operation `actualizar_vector` as the point it upserts. -/
def actualizar_vector (doc_id : String) (embedding : List Rat)
    (descripcion : String) : QdrantPoint :=
  ⟨idNumericoActualizar doc_id, embedding, actualizarPayload descripcion⟩

/-- Qdrant `client.upsert` on one point: replace the point stored under
the same id, or append it when the id is unseen. -/
def upsertPoint : List QdrantPoint → QdrantPoint → List QdrantPoint
  | [], p => [p]
  | q :: qs, p => if q.pid = p.pid then p :: qs else q :: upsertPoint qs p

end QdrantManager

namespace DatabaseManager

/-!
## Document insertion into the primary store (`src/database.py`)
-/

/-- A stored MongoDB document: its object id (as the string `insertar_documento`
returns) and its fields. -/
structure StoredDoc where
  mid : String
  doc : ImagenDocumento
deriving DecidableEq, Repr

/-- A MongoDB collection, in insertion order. -/
abbrev Coleccion := List StoredDoc

/-- Method `verificar_ruta_existente` (lines 95-111):
`find_one({"ruta": ruta_imagen}) is not None`. -/
def verificar_ruta_existente (coleccion : Coleccion) (ruta_imagen : String) : Bool :=
  (coleccion.find? (fun e => e.doc.ruta = ruta_imagen)).isSome

/-- Method `insertar_documento` (lines 113-140): when a document with the
same `ruta` already exists the collection is left unchanged and the id of
the (first) existing document is returned; otherwise the document is
inserted and its new MongoDB id (an external input here) is returned. -/
def insertar_documento (coleccion : Coleccion) (documento : ImagenDocumento)
    (nuevoId : String) : Coleccion × String :=
  match coleccion.find? (fun e => e.doc.ruta = documento.ruta) with
  | some e => (coleccion, e.mid)
  | none => (coleccion ++ [⟨nuevoId, documento⟩], nuevoId)

end DatabaseManager

/-!
## Regex-fallback heuristic scoring (`src/database.py` lines 243-293)
-/

/-- Python `str.lower()` restricted to ASCII, applied code point by code
point; the corpus fields this scoring reads are matched case-insensitively
this way. -/
def aMinusculas (s : String) : String := String.mk (s.data.map Char.toLower)

/-- Python two-argument `min`: the first argument when it is less than or
equal to the second. -/
def pymin (a b : Rat) : Rat := if a ≤ b then a else b

/-- Whether the first character list is an initial segment of the second. -/
def empiezaCon : List Char → List Char → Bool
  | [], _ => true
  | _ :: _, [] => false
  | a :: as, b :: bs => a == b && empiezaCon as bs

/-- Whether the first character list occurs contiguously inside the second. -/
def esSubcadenaL (needle : List Char) : List Char → Bool
  | [] => empiezaCon needle []
  | hs@(_ :: resto) => empiezaCon needle hs || esSubcadenaL needle resto

/-- Python substring containment `needle in haystack` on strings. -/
def esSubcadena (needle haystack : String) : Bool :=
  esSubcadenaL needle.data haystack.data

namespace DatabaseManager

/-- The raw MongoDB document as `_calcular_similitud_regex` reads it: for
each of the eight weighted fields, `some v` is the stringified value
`str(documento[campo])` when the key is present and truthy, and `none`
models a missing key or a falsy value (empty string or empty list), which
the guard `campo in documento and documento[campo]` skips. -/
structure DocumentoRegex where
  nombre : Option String
  descripcion_semantica : Option String
  objetos : Option String
  personas : Option String
  ciudad : Option String
  barrio : Option String
  calle : Option String
  pais : Option String
deriving DecidableEq, Repr

/-- The weighted field list `campos_ponderados` of
`_calcular_similitud_regex` (lines 259-268), in iteration order. -/
def camposPonderados : List ((DocumentoRegex → Option String) × Rat) :=
  [(DocumentoRegex.nombre, 1),
   (DocumentoRegex.descripcion_semantica, 9 / 10),
   (DocumentoRegex.objetos, 8 / 10),
   (DocumentoRegex.personas, 8 / 10),
   (DocumentoRegex.ciudad, 7 / 10),
   (DocumentoRegex.barrio, 6 / 10),
   (DocumentoRegex.calle, 6 / 10),
   (DocumentoRegex.pais, 5 / 10)]

/-- The score one field contributes in the loop of
`_calcular_similitud_regex` (lines 270-280): nothing when the field is
absent or falsy; `ponderacion * 0.8` when the lowered query is contained
in the lowered value; otherwise (`elif`) `ponderacion * 1.0` when the
lowered value is contained in the lowered query; otherwise nothing. -/
def contribucionCampo (queryLower : String) (valor : Option String) (ponderacion : Rat) : Rat :=
  match valor with
  | none => 0
  | some v =>
    let vl := aMinusculas v
    if esSubcadena queryLower vl then ponderacion * (8 / 10)
    else if esSubcadena vl queryLower then ponderacion * 1
    else 0

/-- Method `_calcular_similitud_regex` (lines 243-293): sum the weighted
field contributions, clamp with `min(similitud, 1.0)`, and replace an
exactly zero result with `0.1`. -/
def calcular_similitud_regex (documento : DocumentoRegex) (query : String) : Rat :=
  let queryLower := aMinusculas query
  let similitud := camposPonderados.foldl
    (fun acc fp => acc + contribucionCampo queryLower (fp.1 documento) fp.2) 0
  let recortada := pymin similitud 1
  if recortada = 0 then 1 / 10 else recortada

/-- Modelled from the spec words of the claim, for comparison: the same
computation except that the two awards of one field are read as
independent (both `weight * 0.8` for query-in-value and `weight * 1.0`
for value-in-query are granted when both containments hold), instead of
the exclusive `elif` of the code. -/
def contribucionCampoLiteral (queryLower : String) (valor : Option String)
    (ponderacion : Rat) : Rat :=
  match valor with
  | none => 0
  | some v =>
    let vl := aMinusculas v
    (if esSubcadena queryLower vl then ponderacion * (8 / 10) else 0) +
      (if esSubcadena vl queryLower then ponderacion * 1 else 0)

/-- Modelled from the spec words of the claim: the score with both awards
granted independently per field, then clamped and floored as in the code. -/
def similitudRegexLiteral (documento : DocumentoRegex) (query : String) : Rat :=
  let queryLower := aMinusculas query
  let similitud := camposPonderados.foldl
    (fun acc fp => acc + contribucionCampoLiteral queryLower (fp.1 documento) fp.2) 0
  let recortada := pymin similitud 1
  if recortada = 0 then 1 / 10 else recortada

end DatabaseManager

namespace BuscadorSemantico

/-!
## Hybrid search fusion (`src/busqueda_semantica.py` lines 346-385)

`buscar_hibrida` runs the text path and the vector path (both external
calls whose result lists are inputs here), then merges: a Python dict
keyed by `resultado.documento.id_hash`, first occurrence wins a slot,
a later entry with the same key replaces the slot only when its score
is strictly greater; the dict values (insertion order) are then sorted
descending by score and truncated to the query limit.
-/

/-- A search result (`ResultadoBusqueda` of `src/models.py`). -/
structure ResultadoBusqueda where
  documento : ImagenDocumento
  similitud : Rat
  tipo_busqueda : String
deriving DecidableEq, Repr

/-- One dict write `resultados_combinados[doc_id] = resultado` guarded as
in lines 367-373: find the slot with the same key and keep the stored
entry unless the new score is strictly greater; append a new slot when
the key is unseen. -/
def actualizarCombinados (r : ResultadoBusqueda) :
    List ResultadoBusqueda → List ResultadoBusqueda
  | [] => [r]
  | x :: xs =>
    if x.documento.id_hash = r.documento.id_hash then
      (if x.similitud < r.similitud then r else x) :: xs
    else
      x :: actualizarCombinados r xs

/-- The dict after iterating `resultados_texto + resultados_semanticos`
(lines 364-373), values in insertion order. -/
def combinarResultados (texto semanticos : List ResultadoBusqueda) :
    List ResultadoBusqueda :=
  (texto ++ semanticos).foldl (fun acc r => actualizarCombinados r acc) []

/-- Line 377: stable sort, descending by score
(`sort(key=lambda x: x.similitud, reverse=True)`). -/
def ordenarPorSimilitud (l : List ResultadoBusqueda) : List ResultadoBusqueda :=
  l.mergeSort (fun a b => decide (b.similitud ≤ a.similitud))

/-- The pure fusion core of `buscar_hibrida` (lines 363-378), from the two
path result lists to the returned ranked list. -/
def buscar_hibrida (texto semanticos : List ResultadoBusqueda) (limite : Nat) :
    List ResultadoBusqueda :=
  (ordenarPorSimilitud (combinarResultados texto semanticos)).take limite

end BuscadorSemantico

namespace BuscadorSemantico

/-!
## Per-document processing (`src/busqueda_semantica.py` lines 387-458)

`procesar_documento` builds the composite text, generates the embedding,
writes embedding and description to MongoDB, then inside a dedicated
`try` block queries Qdrant for the point and inserts or updates it; a
failure anywhere in that block is logged as a warning and swallowed,
after which the method still returns the updated document. The external
collaborators (text builder, embedding model, both stores) enter the
model as explicit outcomes; the text builder
`_crear_texto_desde_campos` is a parameter because its output string
feeds every later call unchanged.
-/

/-- External calls `procesar_documento` issues, in order of emission. -/
inductive Evento where
  | llamadaEmbedding : Evento
  | escrituraMongo : Evento
  | consultaQdrant : Evento
  | escrituraQdrantActualizar : Evento
  | escrituraQdrantInsertar : Evento
deriving DecidableEq, Repr

/-- Outcomes of the external collaborators during one
`procesar_documento` call: the embedding call either raises or returns a
vector; the MongoDB update either raises or succeeds; `obtener_por_id`
either raises or reports whether the point exists; the Qdrant write
(`actualizar_vector` or `insertar_vector`) either raises or succeeds. -/
structure EntornoProceso where
  embedResultado : Option (List Rat)
  mongoExito : Bool
  qdrantConsulta : Except Unit Bool
  qdrantEscrituraExito : Bool

/-- Exceptions `procesar_documento` can propagate to its caller. -/
inductive ErrorProceso where
  | cancelado : ErrorProceso
  | errorEmbedding : ErrorProceso
  | errorMongo : ErrorProceso
deriving DecidableEq, Repr

deriving instance DecidableEq for Except

/-- What one `procesar_documento` call did: the external calls it issued,
whether the Qdrant `except` block logged its warning, and the outcome. -/
structure SalidaProceso where
  eventos : List Evento
  avisoQdrant : Bool
  resultado : Except ErrorProceso ImagenDocumento
deriving DecidableEq, Repr

/-- Method `procesar_documento` (lines 387-458). The three cooperative
cancellation checks (before the embedding call, before the MongoDB
write, before the Qdrant block) read the callback; its three sampled
values are explicit inputs. A `True` answer raises, a failed embedding
call or MongoDB write propagates, and any failure inside the Qdrant
block (lines 428-447) only sets the warning; on every non-raising path
the document is returned with the description and embedding fields
updated. -/
def procesar_documento (crearTexto : ImagenDocumento → String) (env : EntornoProceso)
    (documento : ImagenDocumento) (cancelA cancelB cancelC : Bool) : SalidaProceso :=
  let texto := crearTexto documento
  if cancelA then ⟨[], false, .error .cancelado⟩
  else
    match env.embedResultado with
    | none => ⟨[.llamadaEmbedding], false, .error .errorEmbedding⟩
    | some embedding =>
      if cancelB then ⟨[.llamadaEmbedding], false, .error .cancelado⟩
      else if !env.mongoExito then
        ⟨[.llamadaEmbedding, .escrituraMongo], false, .error .errorMongo⟩
      else if cancelC then
        ⟨[.llamadaEmbedding, .escrituraMongo], false, .error .cancelado⟩
      else
        let documentoFinal :=
          { documento with descripcion_semantica := some texto, embedding := some embedding }
        match env.qdrantConsulta with
        | .error _ =>
          ⟨[.llamadaEmbedding, .escrituraMongo, .consultaQdrant], true, .ok documentoFinal⟩
        | .ok existe =>
          let escritura := if existe then Evento.escrituraQdrantActualizar
            else Evento.escrituraQdrantInsertar
          ⟨[.llamadaEmbedding, .escrituraMongo, .consultaQdrant, escritura],
            !env.qdrantEscrituraExito, .ok documentoFinal⟩

/-- How many Qdrant write attempts a list of events contains. -/
def escriturasQdrant (eventos : List Evento) : Nat :=
  eventos.countP (fun e =>
    e == Evento.escrituraQdrantActualizar || e == Evento.escrituraQdrantInsertar)

end BuscadorSemantico

namespace BatchProcessor

/-!
## Chunked batch processing (`src/batch_processor.py` lines 40-158)

`procesar_coleccion_completa` walks the candidate list in chunks of
`batch_size`, polling `cancel_callback` before every chunk and before
every record. The callback reads state outside the function; the claims
under verification describe it through the number of records already
completed, so it enters the model as a function of that number, and the
outcome of `self.buscador.procesar_documento` on each record enters as a
predicate on the record.
-/

/-- The dict `procesar_coleccion_completa` returns. The `cancelado` key
is present (and `True`) only in the two cancellation returns; `none`
models its absence. -/
structure ResultadoProcesamiento where
  total_procesados : Nat
  total_exitosos : Nat
  total_errores : Nat
  cancelado : Option Bool
  mensaje : String
deriving DecidableEq, Repr

/-- The dict built by both cancellation returns (lines 93-99 and
109-115). -/
def resultadoCancelacion (ps ex er : Nat) : ResultadoProcesamiento :=
  ⟨ps, ex, er, some true,
    "Procesamiento cancelado: " ++ toString ex ++ " exitosos, " ++ toString er ++ " errores"⟩

/-- The inner record loop of one chunk (lines 104-139): before each
record poll the callback (`inr` returns the counters at the cancellation
point), otherwise count the record as success or error and continue. -/
def procesarRegistros (exito : ImagenDocumento → Bool) (cancel : Nat → Bool) :
    List ImagenDocumento → Nat → Nat → (Nat × Nat) ⊕ (Nat × Nat)
  | [], ex, er => .inl (ex, er)
  | d :: ds, ex, er =>
    if cancel (ex + er) then .inr (ex, er)
    else if exito d then procesarRegistros exito cancel ds (ex + 1) er
    else procesarRegistros exito cancel ds ex (er + 1)

/-- The chunk loop (lines 87-145): before each chunk poll the callback;
after a completed chunk add its length to `total_procesados`; a
cancellation inside the chunk returns with `total_procesados` still
counting only fully completed chunks, exactly as the code does. -/
def procesarLotes (exito : ImagenDocumento → Bool) (cancel : Nat → Bool) :
    List (List ImagenDocumento) → Nat → Nat → Nat → ResultadoProcesamiento
  | [], ps, ex, er =>
    ⟨ps, ex, er, none,
      "Procesamiento completado: " ++ toString ex ++ " exitosos, " ++ toString er ++ " errores"⟩
  | lote :: resto, ps, ex, er =>
    if cancel (ex + er) then resultadoCancelacion ps ex er
    else
      match procesarRegistros exito cancel lote ex er with
      | .inl (ex2, er2) => procesarLotes exito cancel resto (ps + lote.length) ex2 er2
      | .inr (ex2, er2) => resultadoCancelacion ps ex2 er2

/-- Method `procesar_coleccion_completa` on an already-fetched candidate
list (lines 69-154): empty candidate set returns all-zero counters at
once; otherwise the chunked loop runs from zero counters. -/
def procesar_coleccion_completa (documentos : List ImagenDocumento) (batch_size : Nat)
    (exito : ImagenDocumento → Bool) (cancel : Nat → Bool) : ResultadoProcesamiento :=
  if documentos.length = 0 then ⟨0, 0, 0, none, "No hay documentos para procesar"⟩
  else procesarLotes exito cancel (chunksOf batch_size documentos) 0 0 0

/-- The call with `cancel_callback=None` (lines 52-54): the code
substitutes `lambda: False`, so every poll answers `False`. -/
def procesar_coleccion_sin_callback (documentos : List ImagenDocumento) (batch_size : Nat)
    (exito : ImagenDocumento → Bool) : ResultadoProcesamiento :=
  procesar_coleccion_completa documentos batch_size exito (fun _ => false)

end BatchProcessor

/-!
## Backup validation (`src/database.py` lines 589-694 and
`src/qdrant_manager.py` lines 559-645)
-/

/-- A JSON value, as `json.load` returns it; numbers restricted to the
integers these artifacts carry. -/
inductive J where
  | null : J
  | num (n : Int) : J
  | str (s : String) : J
  | jbool (b : Bool) : J
  | arr (elementos : List J) : J
  | obj (campos : List (String × J)) : J

/-- Lookup in a JSON object, first binding wins as in a Python dict. -/
def jGet : List (String × J) → String → Option J
  | [], _ => none
  | (k, v) :: resto, clave => if k = clave then some v else jGet resto clave

/-- Python equality `m == valor` between the `int` length of the records
array and an arbitrary JSON value from the manifest: numbers compare
numerically, Python `bool` compares as 0 or 1, every other type is
unequal to an `int`. -/
def pyEqNat (valor : J) (m : Nat) : Bool :=
  match valor with
  | .num n => n == (m : Int)
  | .jbool b => (if b then (1 : Int) else 0) == (m : Int)
  | _ => false

/-- Python `str()` of the manifest values that can appear inside the
mismatch message. -/
def jTexto : J → String
  | .num n => toString n
  | .str s => s
  | .jbool true => "True"
  | .jbool false => "False"
  | .null => "None"
  | .arr _ => "[...]"
  | .obj _ => "{...}"

/-- A backup artifact on disk, as the validators see it: whether the path
exists, the parsed JSON (`none` when `json.load` raises), the SHA-256 hex
digest a fresh rehash of the raw bytes yields, and the file size. The
digest and size are independent inputs because they are functions of the
raw bytes, which the parsed JSON does not determine. -/
structure ArchivoBackup where
  existe : Bool
  contenido : Option J
  sha256hex : String
  tamano : Nat

/-- The dict a validator returns: the verdict, the error reason when
invalid, and (on success) the recomputed file hash and the counted
records. -/
structure ValidacionInfo where
  valido : Bool
  error : Option String
  hash_sha256 : Option String
  total : Option Nat
deriving DecidableEq, Repr

namespace DatabaseManager

/-- The required manifest fields of a MongoDB backup (line 633). -/
def camposRequeridosMongo : List String :=
  ["collection_name", "database_name", "backup_date", "total_documents"]

/-- First required field missing from the manifest, scanning in order as
the loop of lines 634-640 does. -/
def primerCampoFaltante (metadata : List (String × J)) : List String → Option String
  | [] => none
  | campo :: resto =>
    if (jGet metadata campo).isSome then primerCampoFaltante metadata resto
    else some campo

/-- First offending document of the per-document loop (lines 651-665):
an element that is not a dict, or a dict without `_id`; returns its index
and the error message the code formats. -/
def primerDocumentoInvalido : List J → Nat → Option String
  | [], _ => none
  | doc :: resto, i =>
    match doc with
    | .obj campos =>
      if (jGet campos "_id").isSome then primerDocumentoInvalido resto (i + 1)
      else some ("Documento " ++ toString i ++ " no tiene campo _id")
    | _ => some ("Documento " ++ toString i ++ " no es un diccionario válido")

/-- Method `DatabaseManager.validar_backup` (lines 589-694). Checks run
in the order of the code: existence, JSON parse, presence of `metadata`
and `documents`, required manifest fields, declared count versus actual
count, per-document shape. Only then the file is rehashed, and the hash
goes into the success dict; no comparison of the hash happens. Paths on
which Python would raise inside the `try` (a manifest or document array
of the wrong type) are collapsed to the generic invalid verdict the
outer `except` produces. -/
def validar_backup (archivo : ArchivoBackup) : ValidacionInfo :=
  if !archivo.existe then ⟨false, some "Archivo no encontrado", none, none⟩
  else
    match archivo.contenido with
    | none => ⟨false, some "Error de formato JSON", none, none⟩
    | some (J.obj raiz) =>
      match jGet raiz "metadata", jGet raiz "documents" with
      | some (J.obj metadata), some (J.arr documentos) =>
        match primerCampoFaltante metadata camposRequeridosMongo with
        | some campo =>
          ⟨false, some ("Campo requerido faltante en metadata: " ++ campo), none, none⟩
        | none =>
          if !pyEqNat ((jGet metadata "total_documents").getD J.null) documentos.length then
            ⟨false,
              some ("Inconsistencia: metadata indica " ++
                jTexto ((jGet metadata "total_documents").getD J.null) ++
                " documentos pero archivo contiene " ++ toString documentos.length),
              none, none⟩
          else
            match primerDocumentoInvalido documentos 0 with
            | some mensaje => ⟨false, some mensaje, none, none⟩
            | none => ⟨true, none, some archivo.sha256hex, some documentos.length⟩
      | some _, some _ => ⟨false, some "error de tipo en la estructura", none, none⟩
      | _, _ => ⟨false, some "Estructura de backup inválida", none, none⟩
    | some _ => ⟨false, some "Estructura de backup inválida", none, none⟩

end DatabaseManager

namespace QdrantManager

/-- The required manifest fields of a Qdrant backup (line 603). -/
def camposRequeridosQdrant : List String :=
  ["collection_name", "backup_date", "total_vectors", "vector_size"]

/-- Method `QdrantManager.validar_backup` (lines 559-645): the same
pipeline over the `vectors` array and its manifest fields, with no
per-element checks. The recomputed hash again only decorates the success
dict. -/
def validar_backup (archivo : ArchivoBackup) : ValidacionInfo :=
  if !archivo.existe then ⟨false, some "Archivo no encontrado", none, none⟩
  else
    match archivo.contenido with
    | none => ⟨false, some "Error de formato JSON", none, none⟩
    | some (J.obj raiz) =>
      match jGet raiz "metadata", jGet raiz "vectors" with
      | some (J.obj metadata), some (J.arr vectores) =>
        match DatabaseManager.primerCampoFaltante metadata camposRequeridosQdrant with
        | some campo =>
          ⟨false, some ("Campo requerido faltante en metadata: " ++ campo), none, none⟩
        | none =>
          if !pyEqNat ((jGet metadata "total_vectors").getD J.null) vectores.length then
            ⟨false,
              some ("Inconsistencia: metadata indica " ++
                jTexto ((jGet metadata "total_vectors").getD J.null) ++
                " vectores pero archivo contiene " ++ toString vectores.length),
              none, none⟩
          else ⟨true, none, some archivo.sha256hex, some vectores.length⟩
      | some _, some _ => ⟨false, some "error de tipo en la estructura", none, none⟩
      | _, _ => ⟨false, some "Estructura de backup inválida", none, none⟩
    | some _ => ⟨false, some "Estructura de backup inválida", none, none⟩

end QdrantManager

/-!
## Spec-side comparison function and concrete inputs
-/

/-- Modelled from the spec words of the amended reading of the scoring
contract, written independently of the code: per field, award
`weight * 0.8` when the query is a substring of the field value, and
otherwise award the full weight when the field value is a substring of
the query; sum the eight named fields in their documented order with
their documented weights, clamp the sum to the interval `[0, 1]`, and
replace an exactly zero result with `0.1`. -/
def similitudRegexEspecEnmendada (d : DatabaseManager.DocumentoRegex) (query : String) : Rat :=
  let ql := aMinusculas query
  let premio : Option String → Rat → Rat := fun valor peso =>
    match valor with
    | none => 0
    | some v =>
      if esSubcadena ql (aMinusculas v) then peso * (8 / 10)
      else if esSubcadena (aMinusculas v) ql then peso
      else 0
  let suma := premio d.nombre 1 + premio d.descripcion_semantica (9 / 10) +
    premio d.objetos (8 / 10) + premio d.personas (8 / 10) + premio d.ciudad (7 / 10) +
    premio d.barrio (6 / 10) + premio d.calle (6 / 10) + premio d.pais (5 / 10)
  let recortada := if suma < 0 then 0 else if 1 < suma then 1 else suma
  if recortada = 0 then 1 / 10 else recortada

/-- A record key of the shape the system stores in `id_hash` (a SHA-256
hex digest). -/
def claveEjemplo : String :=
  "2d711642b726b04401627ca9fbac32f5c8530fb1903cc4db02258717921a4881"

/-- A concrete record used to instantiate theorems with hypotheses. -/
def documentoEjemplo : ImagenDocumento where
  id := some "65a0c0ffee"
  id_hash := some claveEjemplo
  hash_sha512 := "feedbead"
  nombre := "foto.jpg"
  ruta := "/fotos/foto.jpg"
  ruta_alternativa := none
  ancho := 640
  alto := 480
  peso := 2048
  fecha_creacion_dia := "01"
  fecha_creacion_mes := "02"
  fecha_creacion_anio := "2024"
  fecha_creacion_hora := "10"
  fecha_creacion_minuto := "30"
  fecha_procesamiento_dia := "05"
  fecha_procesamiento_mes := "02"
  fecha_procesamiento_anio := "2024"
  fecha_procesamiento_hora := "22"
  fecha_procesamiento_minuto := "15"
  coordenadas := .cdict [("lat", 40), ("lon", -3)]
  barrio := "Centro"
  calle := "Mayor"
  ciudad := "Madrid"
  cp := "28001"
  pais := "España"
  objeto_procesado := true
  objetos := ["perro", "bicicleta"]
  personas := ["persona"]
  embedding := none
  descripcion_semantica := none
  qdrant := false

/-- A one-document collection whose stored document has the path of
`documentoEjemplo`. -/
def coleccionEjemplo : DatabaseManager.Coleccion :=
  [⟨"id0", documentoEjemplo⟩]

/-- A well-formed MongoDB backup artifact: manifest complete, declared
count matching the single stored document. -/
def backupEjemplo : ArchivoBackup where
  existe := true
  contenido := some (J.obj
    [("metadata", J.obj
      [("collection_name", .str "imagenes_2"),
       ("database_name", .str "album"),
       ("backup_date", .str "2026-01-01T00:00:00"),
       ("total_documents", .num 1)]),
     ("documents", J.arr [J.obj [("_id", .str "a1"), ("nombre", .str "foto.jpg")]])])
  sha256hex := "8d2f0a"
  tamano := 412

/-- The same artifact after its bytes were altered: one stored field
value changed, so the raw bytes and with them the SHA-256 digest differ,
while manifest and count still agree. -/
def backupCorrupto : ArchivoBackup where
  existe := true
  contenido := some (J.obj
    [("metadata", J.obj
      [("collection_name", .str "imagenes_2"),
       ("database_name", .str "album"),
       ("backup_date", .str "2026-01-01T00:00:00"),
       ("total_documents", .num 1)]),
     ("documents", J.arr [J.obj [("_id", .str "a1"), ("nombre", .str "QQQQQQQQQ")]])])
  sha256hex := "77134c"
  tamano := 412

/-- A well-formed Qdrant backup artifact. -/
def backupQdrantEjemplo : ArchivoBackup where
  existe := true
  contenido := some (J.obj
    [("metadata", J.obj
      [("collection_name", .str "imagenes_semanticas"),
       ("backup_date", .str "2026-01-01T00:00:00"),
       ("total_vectors", .num 1),
       ("vector_size", .num 768)]),
     ("vectors", J.arr [J.obj [("id", .num 7), ("vector", J.arr [J.num 1])]])])
  sha256hex := "5e11a0"
  tamano := 230

/-- The Qdrant artifact after corruption of a stored vector value. -/
def backupQdrantCorrupto : ArchivoBackup where
  existe := true
  contenido := some (J.obj
    [("metadata", J.obj
      [("collection_name", .str "imagenes_semanticas"),
       ("backup_date", .str "2026-01-01T00:00:00"),
       ("total_vectors", .num 1),
       ("vector_size", .num 768)]),
     ("vectors", J.arr [J.obj [("id", .num 7), ("vector", J.arr [J.num 999])]])])
  sha256hex := "0b5c3d"
  tamano := 230


/-!
# Theorems
-/

theorem chunksOfF_nil (fuel bs : Nat) : chunksOfF fuel bs ([] : List α) = [] := by
  cases fuel <;> rfl

theorem chunksOfF_congr {bs : Nat} (hbs : 0 < bs) (fuel : Nat) :
    ∀ (l : List α) (fuel2 : Nat), l.length ≤ fuel → l.length ≤ fuel2 →
      chunksOfF fuel bs l = chunksOfF fuel2 bs l := by
  induction fuel with
  | zero =>
    intro l fuel2 h _
    have : l = [] := List.eq_nil_of_length_eq_zero (Nat.le_zero.mp h)
    subst this
    rw [chunksOfF_nil, chunksOfF_nil]
  | succ n ih =>
    intro l fuel2 h h2
    match l with
    | [] => rw [chunksOfF_nil, chunksOfF_nil]
    | x :: xs =>
      match fuel2 with
      | 0 =>
        exact absurd h2 (by simp)
      | m + 1 =>
        simp only [chunksOfF]
        congr 1
        have hlen : ((x :: xs).drop bs).length = xs.length + 1 - bs := by
          simp [List.length_drop]
        have hxs : xs.length + 1 ≤ n + 1 := by simpa using h
        have hxs2 : xs.length + 1 ≤ m + 1 := by simpa using h2
        exact ih _ m (by omega) (by omega)

theorem chunksOf_nil (bs : Nat) : chunksOf bs ([] : List α) = [] := by
  simp [chunksOf, chunksOfF_nil]

theorem chunksOf_cons {bs : Nat} (hbs : 0 < bs) (l : List α) (hl : l ≠ []) :
    chunksOf bs l = l.take bs :: chunksOf bs (l.drop bs) := by
  match l with
  | [] => exact absurd rfl hl
  | x :: xs =>
    simp only [chunksOf, Nat.pos_iff_ne_zero.mp hbs, if_false, List.length_cons, chunksOfF]
    congr 1
    have hlen : ((x :: xs).drop bs).length = xs.length + 1 - bs := by
      simp [List.length_drop]
    exact chunksOfF_congr hbs xs.length _ _ (by omega) (by omega)

-- Known MD5 vectors, checking the embedding against RFC 1321 and the
-- values `hashlib.md5` produces.
example : Md5.md5Hex (strBytes "") = "d41d8cd98f00b204e9800998ecf8427e" := by decide
example : Md5.md5Hex (strBytes "a") = "0cc175b9c0f1b6a831c399e269772661" := by decide
example : Md5.md5Hex (strBytes "abc") = "900150983cd24fb0d6963f7d28e17f72" := by decide

-- A concrete record key of the shape the system produces (`id_hash` is a
-- SHA-256 hex digest): the id the insert and retrieve paths derive from it.
example :
    QdrantManager.idNumericoInsertar
      "2d711642b726b04401627ca9fbac32f5c8530fb1903cc4db02258717921a4881" = 1111492864 := by
  decide

/-- C1: the claim states that the insert, retrieve and delete operations
of the vector store manager all derive the same numeric id from the same
`id_hash` string. In the code, insert, retrieve and update agree (all
truncate the MD5 digest to its first 8 hex digits), but
`eliminar_vector` converts the full 32-digit digest, so on the same key
the delete path addresses a different numeric id than the one the insert
path wrote: evaluated on the key `claveEjemplo`, insert derives
1111492864 while delete derives a 127-bit number, and the two differ.
The claim (and the spec invariant `same key → same id, always`) is the
evident intent; the delete path contradicts the truncation its sibling
operations document, so this is recorded as a code bug. -/
theorem c1_id_numerico_divergencia_eliminar :
    (∀ clave : String,
      QdrantManager.idNumericoInsertar clave = QdrantManager.idNumericoObtener clave ∧
      QdrantManager.idNumericoInsertar clave = QdrantManager.idNumericoActualizar clave) ∧
    QdrantManager.idNumericoInsertar claveEjemplo = 1111492864 ∧
    QdrantManager.idNumericoEliminar claveEjemplo = 88061537298100026328311140999440703555 ∧
    QdrantManager.idNumericoEliminar claveEjemplo ≠ QdrantManager.idNumericoInsertar claveEjemplo := by
  refine ⟨fun clave => ⟨rfl, rfl⟩, by decide, by decide, by decide⟩

/-- C9: after validation, `coordenadas` is never a list: a list with at
least two elements is normalized to the dict `{"lat": first, "lon":
second}`, a dict input is kept unchanged, `None` stays `None`, and any
other shape - including a list with fewer than two elements - becomes
`None`. -/
theorem c9_coordenadas_normalizadas :
    (∀ (a b : Rat) (resto : List Rat),
      validar_coordenadas (.clist (a :: b :: resto)) = .cdict [("lat", a), ("lon", b)]) ∧
    validar_coordenadas (.clist []) = .cnone ∧
    (∀ a : Rat, validar_coordenadas (.clist [a]) = .cnone) ∧
    (∀ d, validar_coordenadas (.cdict d) = .cdict d) ∧
    validar_coordenadas .cnone = .cnone ∧
    validar_coordenadas .cother = .cnone ∧
    (∀ (v : PyCoord) (l : List Rat), validar_coordenadas v ≠ .clist l) := by
  refine ⟨fun a b resto => rfl, rfl, fun a => rfl, fun d => rfl, rfl, rfl, ?_⟩
  intro v l
  cases v with
  | cnone => simp [validar_coordenadas]
  | clist ls =>
    match ls with
    | [] => simp [validar_coordenadas]
    | [a] => simp [validar_coordenadas]
    | a :: b :: resto => simp [validar_coordenadas]
  | cdict d => simp [validar_coordenadas]
  | cother => simp [validar_coordenadas]

/-- C8: when a document with the same `ruta` is already stored,
`insertar_documento` leaves the collection unchanged and returns the id
of the (first) already-stored document with that path; consequently
inserting the same document twice gives, the second time, exactly the
state and id of the first call, so insertion by path is idempotent at
the public interface. -/
theorem c8_insercion_por_ruta_idempotente
    (coleccion : DatabaseManager.Coleccion) (documento : ImagenDocumento)
    (nuevoId nuevoId2 : String) :
    (DatabaseManager.verificar_ruta_existente coleccion documento.ruta = true →
      (DatabaseManager.insertar_documento coleccion documento nuevoId).1 = coleccion ∧
      ∃ e, coleccion.find? (fun x => x.doc.ruta = documento.ruta) = some e ∧
        (DatabaseManager.insertar_documento coleccion documento nuevoId).2 = e.mid) ∧
    DatabaseManager.insertar_documento
        (DatabaseManager.insertar_documento coleccion documento nuevoId).1 documento nuevoId2 =
      DatabaseManager.insertar_documento coleccion documento nuevoId := by
  unfold DatabaseManager.insertar_documento DatabaseManager.verificar_ruta_existente
  cases hfind : coleccion.find? (fun x => x.doc.ruta = documento.ruta) with
  | some e =>
    exact ⟨fun _ => ⟨rfl, e, rfl, rfl⟩, by simp [hfind]⟩
  | none =>
    constructor
    · intro hver
      simp at hver
    · show DatabaseManager.insertar_documento (coleccion ++ [⟨nuevoId, documento⟩]) documento nuevoId2
        = (coleccion ++ [⟨nuevoId, documento⟩], nuevoId)
      unfold DatabaseManager.insertar_documento
      rw [List.find?_append, hfind, Option.none_or, List.find?_cons_of_pos _ (by simp)]

/-- Witness for C8: on the concrete one-document collection the path of
`documentoEjemplo` already exists, and inserting it again leaves the
collection unchanged. -/
theorem c8_insercion_por_ruta_idempotente_witness :
    DatabaseManager.verificar_ruta_existente coleccionEjemplo documentoEjemplo.ruta = true ∧
    (DatabaseManager.insertar_documento coleccionEjemplo documentoEjemplo "nuevo").1 =
      coleccionEjemplo :=
  ⟨by with_unfolding_all decide,
   ((c8_insercion_por_ruta_idempotente coleccionEjemplo documentoEjemplo "nuevo" "otro").1
     (by with_unfolding_all decide)).1⟩

/-- Counterexample to C5: the claim states every vector entry written by
the insert path or by the update path carries a denormalized copy of
every record attribute, but the point `actualizar_vector` writes has a
payload holding only `descripcion_semantica` - no name, path, key, or
any other attribute - and since Qdrant `upsert` replaces the stored
point, an insert of the example record followed by an update of the same
record leaves the store holding exactly that attribute-free point. -/
theorem c5_payload_actualizacion_contraejemplo :
    (QdrantManager.actualizar_vector claveEjemplo [1] "texto nuevo").payload =
      [("descripcion_semantica", .vstr "texto nuevo")] ∧
    QdrantManager.payloadGet
      (QdrantManager.actualizar_vector claveEjemplo [1] "texto nuevo").payload "nombre" = none ∧
    QdrantManager.payloadGet
      (QdrantManager.actualizar_vector claveEjemplo [1] "texto nuevo").payload "ruta" = none ∧
    QdrantManager.payloadGet
      (QdrantManager.actualizar_vector claveEjemplo [1] "texto nuevo").payload "id_hash" = none ∧
    (QdrantManager.insertar_vector documentoEjemplo [1] "texto").map
        (fun p => QdrantManager.upsertPoint (QdrantManager.upsertPoint [] p)
          (QdrantManager.actualizar_vector claveEjemplo [1] "texto nuevo")) =
      some [QdrantManager.actualizar_vector claveEjemplo [1] "texto nuevo"] := by
  refine ⟨rfl, rfl, rfl, rfl, ?_⟩
  decide

/-- C5 as amended: the point built by the insert path carries, under the
documented payload keys, a denormalized copy of every record attribute
together with the description and the embedding; the point built by the
update path instead carries only the semantic description, so the store
stays self-sufficient only for entries last written by the insert path. -/
theorem c5_payload_insercion_enmendado :
    (∀ (documento : ImagenDocumento) (embedding : List Rat) (descripcion : String)
      (clave : String), documento.id_hash = some clave →
      QdrantManager.insertar_vector documento embedding descripcion =
        some ⟨QdrantManager.idNumericoInsertar clave, embedding,
          QdrantManager.insertarPayload documento embedding descripcion⟩) ∧
    (∀ (documento : ImagenDocumento) (embedding : List Rat) (descripcion : String),
      let p := QdrantManager.insertarPayload documento embedding descripcion
      QdrantManager.payloadGet p "id" = some (QdrantManager.optStr documento.id) ∧
      QdrantManager.payloadGet p "id_hash" = some (QdrantManager.optStr documento.id_hash) ∧
      QdrantManager.payloadGet p "hash_sha512" = some (.vstr documento.hash_sha512) ∧
      QdrantManager.payloadGet p "nombre" = some (.vstr documento.nombre) ∧
      QdrantManager.payloadGet p "ruta" = some (.vstr documento.ruta) ∧
      QdrantManager.payloadGet p "ruta_alternativa" =
        some (QdrantManager.optStr documento.ruta_alternativa) ∧
      QdrantManager.payloadGet p "ancho" = some (.vint documento.ancho) ∧
      QdrantManager.payloadGet p "alto" = some (.vint documento.alto) ∧
      QdrantManager.payloadGet p "peso" = some (.vrat documento.peso) ∧
      QdrantManager.payloadGet p "fecha_creacion" =
        some (.vstr documento.get_fecha_creacion) ∧
      QdrantManager.payloadGet p "fecha_creacion_dia" =
        some (.vstr documento.fecha_creacion_dia) ∧
      QdrantManager.payloadGet p "fecha_creacion_mes" =
        some (.vstr documento.fecha_creacion_mes) ∧
      QdrantManager.payloadGet p "fecha_creacion_anio" =
        some (.vstr documento.fecha_creacion_anio) ∧
      QdrantManager.payloadGet p "fecha_creacion_hora" =
        some (.vstr documento.fecha_creacion_hora) ∧
      QdrantManager.payloadGet p "fecha_creacion_minuto" =
        some (.vstr documento.fecha_creacion_minuto) ∧
      QdrantManager.payloadGet p "fecha_procesamiento" =
        some (.vstr documento.get_fecha_procesamiento) ∧
      QdrantManager.payloadGet p "fecha_procesamiento_dia" =
        some (.vstr documento.fecha_procesamiento_dia) ∧
      QdrantManager.payloadGet p "fecha_procesamiento_mes" =
        some (.vstr documento.fecha_procesamiento_mes) ∧
      QdrantManager.payloadGet p "fecha_procesamiento_anio" =
        some (.vstr documento.fecha_procesamiento_anio) ∧
      QdrantManager.payloadGet p "fecha_procesamiento_hora" =
        some (.vstr documento.fecha_procesamiento_hora) ∧
      QdrantManager.payloadGet p "fecha_procesamiento_minuto" =
        some (.vstr documento.fecha_procesamiento_minuto) ∧
      QdrantManager.payloadGet p "coordenadas" = some (.vcoord documento.coordenadas) ∧
      QdrantManager.payloadGet p "barrio" = some (.vstr documento.barrio) ∧
      QdrantManager.payloadGet p "calle" = some (.vstr documento.calle) ∧
      QdrantManager.payloadGet p "ciudad" = some (.vstr documento.ciudad) ∧
      QdrantManager.payloadGet p "cp" = some (.vstr documento.cp) ∧
      QdrantManager.payloadGet p "pais" = some (.vstr documento.pais) ∧
      QdrantManager.payloadGet p "objeto_procesado" =
        some (.vbool documento.objeto_procesado) ∧
      QdrantManager.payloadGet p "objetos" = some (.vlist documento.objetos) ∧
      QdrantManager.payloadGet p "personas" = some (.vlist documento.personas) ∧
      QdrantManager.payloadGet p "descripcion_semantica" = some (.vstr descripcion) ∧
      QdrantManager.payloadGet p "embedding" = some (.vrats embedding)) ∧
    (∀ (clave : String) (embedding : List Rat) (descripcion : String),
      (QdrantManager.actualizar_vector clave embedding descripcion).payload =
        [("descripcion_semantica", .vstr descripcion)]) := by
  refine ⟨fun documento embedding descripcion clave h => ?_,
    fun documento embedding descripcion => ?_, fun clave embedding descripcion => rfl⟩
  · unfold QdrantManager.insertar_vector
    rw [h]
  · simp [QdrantManager.payloadGet, QdrantManager.insertarPayload]

/-- Witness for C5 as amended: the insert path applied to the example
record produces exactly the full denormalized point. -/
theorem c5_payload_insercion_enmendado_witness :
    documentoEjemplo.id_hash = some claveEjemplo ∧
    QdrantManager.insertar_vector documentoEjemplo [1] "texto" =
      some ⟨QdrantManager.idNumericoInsertar claveEjemplo, [1],
        QdrantManager.insertarPayload documentoEjemplo [1] "texto"⟩ :=
  ⟨rfl, (c5_payload_insercion_enmendado.1 documentoEjemplo [1] "texto" claveEjemplo rfl)⟩

theorem contribucion_no_negativa (ql : String) (v : Option String) (p : Rat) (hp : 0 ≤ p) :
    0 ≤ DatabaseManager.contribucionCampo ql v p := by
  cases v with
  | none => simp [DatabaseManager.contribucionCampo]
  | some s =>
    simp only [DatabaseManager.contribucionCampo]
    split_ifs
    · exact mul_nonneg hp (by norm_num)
    · exact mul_nonneg hp (by norm_num)
    · exact le_refl 0

theorem contribucion_cero_o_minima (ql : String) (v : Option String) (p : Rat)
    (hp : 1 / 2 ≤ p) :
    DatabaseManager.contribucionCampo ql v p = 0 ∨
      2 / 5 ≤ DatabaseManager.contribucionCampo ql v p := by
  cases v with
  | none => exact Or.inl rfl
  | some s =>
    simp only [DatabaseManager.contribucionCampo]
    split_ifs
    · right
      have h := mul_le_mul_of_nonneg_right hp (show (0 : Rat) ≤ 8 / 10 by norm_num)
      calc (2 : Rat) / 5 = 1 / 2 * (8 / 10) := by norm_num
        _ ≤ p * (8 / 10) := h
    · right
      rw [mul_one]
      linarith
    · exact Or.inl rfl

theorem suma_contribuciones_fold (ql : String) (d : DatabaseManager.DocumentoRegex) :
    ∀ (l : List ((DatabaseManager.DocumentoRegex → Option String) × Rat)),
      (∀ fp ∈ l, 1 / 2 ≤ fp.2) → ∀ acc : Rat, 0 ≤ acc → (acc = 0 ∨ 2 / 5 ≤ acc) →
      0 ≤ l.foldl (fun acc fp => acc + DatabaseManager.contribucionCampo ql (fp.1 d) fp.2) acc ∧
      (l.foldl (fun acc fp => acc + DatabaseManager.contribucionCampo ql (fp.1 d) fp.2) acc = 0 ∨
        2 / 5 ≤ l.foldl (fun acc fp => acc + DatabaseManager.contribucionCampo ql (fp.1 d) fp.2) acc) := by
  intro l
  induction l with
  | nil => exact fun _ acc h1 h2 => ⟨h1, h2⟩
  | cons fp resto ih =>
    intro hw acc h1 h2
    have hp : 1 / 2 ≤ fp.2 := hw fp (List.mem_cons_self fp resto)
    have hc0 : 0 ≤ DatabaseManager.contribucionCampo ql (fp.1 d) fp.2 :=
      contribucion_no_negativa ql (fp.1 d) fp.2 (by linarith)
    have hcd := contribucion_cero_o_minima ql (fp.1 d) fp.2 hp
    have h1' : 0 ≤ acc + DatabaseManager.contribucionCampo ql (fp.1 d) fp.2 := by linarith
    have h2' : acc + DatabaseManager.contribucionCampo ql (fp.1 d) fp.2 = 0 ∨
        2 / 5 ≤ acc + DatabaseManager.contribucionCampo ql (fp.1 d) fp.2 := by
      rcases h2 with h2 | h2
      · rcases hcd with hcd | hcd
        · exact Or.inl (by rw [h2, hcd, add_zero])
        · exact Or.inr (by linarith)
      · exact Or.inr (by linarith)
    exact ih (fun x hx => hw x (List.mem_cons_of_mem fp hx)) _ h1' h2'

theorem pesos_camposPonderados :
    ∀ fp ∈ DatabaseManager.camposPonderados, (1 : Rat) / 2 ≤ fp.2 := by
  intro fp hfp
  fin_cases hfp <;> norm_num

/-- Counterexample to C6: on a record whose only populated field is
`pais = "Madrid"` and the query `"Madrid"`, both containments hold, and
the code (whose two awards are joined by `elif`) scores `0.5 * 0.8 =
0.4`, while the claim read literally - both awards granted - would score
`0.5 * 0.8 + 0.5 * 1.0 = 0.9`. -/
theorem c6_puntuacion_contraejemplo :
    DatabaseManager.calcular_similitud_regex
      ⟨none, none, none, none, none, none, none, some "Madrid"⟩ "Madrid" = 2 / 5 ∧
    DatabaseManager.similitudRegexLiteral
      ⟨none, none, none, none, none, none, none, some "Madrid"⟩ "Madrid" = 9 / 10 ∧
    (2 / 5 : Rat) ≠ 9 / 10 := by
  refine ⟨by with_unfolding_all decide, by with_unfolding_all decide, by norm_num⟩

theorem clamp_floor_eq (s : Rat) (hs : 0 ≤ s) :
    (if pymin s 1 = 0 then 1 / 10 else pymin s 1) =
      (if (if s < 0 then 0 else if 1 < s then 1 else s) = 0 then 1 / 10
       else (if s < 0 then 0 else if 1 < s then 1 else s)) := by
  simp only [pymin]
  split_ifs <;> first | rfl | linarith

theorem clamp_floor_bounds (s : Rat) (h0 : 0 ≤ s) (hd : s = 0 ∨ 2 / 5 ≤ s) :
    1 / 10 ≤ (if pymin s 1 = 0 then 1 / 10 else pymin s 1) ∧
      (if pymin s 1 = 0 then 1 / 10 else pymin s 1) ≤ 1 := by
  simp only [pymin]
  rcases hd with hd | hd <;> constructor <;> split_ifs <;> first | linarith | norm_num

/-- C6 as amended: the fallback heuristic score equals the amended spec
formula in which the two per-field awards are mutually exclusive - the
full-weight award applies only when the field value is contained in the
query and the query is not contained in the field value - with the
documented weights, the clamp to `[0, 1]`, and the floor `0.1` for an
exactly zero sum; consequently every returned score lies in
`[0.1, 1.0]` and is never `0`. -/
theorem c6_puntuacion_enmendada :
    (∀ (documento : DatabaseManager.DocumentoRegex) (query : String),
      DatabaseManager.calcular_similitud_regex documento query =
        similitudRegexEspecEnmendada documento query) ∧
    (∀ (documento : DatabaseManager.DocumentoRegex) (query : String),
      1 / 10 ≤ DatabaseManager.calcular_similitud_regex documento query ∧
      DatabaseManager.calcular_similitud_regex documento query ≤ 1) := by
  constructor
  · intro d q
    have hs := (suma_contribuciones_fold (aMinusculas q) d DatabaseManager.camposPonderados
      pesos_camposPonderados 0 le_rfl (Or.inl rfl)).1
    simp only [DatabaseManager.camposPonderados, List.foldl_cons, List.foldl_nil,
      DatabaseManager.contribucionCampo, zero_add, mul_one] at hs
    simp only [DatabaseManager.calcular_similitud_regex, similitudRegexEspecEnmendada,
      DatabaseManager.camposPonderados, List.foldl_cons, List.foldl_nil,
      DatabaseManager.contribucionCampo, zero_add, mul_one]
    exact clamp_floor_eq _ hs
  · intro d q
    obtain ⟨h0, hd⟩ := suma_contribuciones_fold (aMinusculas q) d
      DatabaseManager.camposPonderados pesos_camposPonderados 0 le_rfl (Or.inl rfl)
    simp only [DatabaseManager.calcular_similitud_regex]
    exact clamp_floor_bounds _ h0 hd

theorem actualizar_mem (r : BuscadorSemantico.ResultadoBusqueda) :
    ∀ (acc : List BuscadorSemantico.ResultadoBusqueda),
      ∀ x ∈ BuscadorSemantico.actualizarCombinados r acc, x ∈ acc ∨ x = r := by
  intro acc
  induction acc with
  | nil =>
    intro x hx
    simp only [BuscadorSemantico.actualizarCombinados, List.mem_singleton] at hx
    exact Or.inr hx
  | cons a as ih =>
    intro x hx
    simp only [BuscadorSemantico.actualizarCombinados] at hx
    by_cases h : a.documento.id_hash = r.documento.id_hash
    · rw [if_pos h] at hx
      rcases List.mem_cons.mp hx with hx | hx
      · by_cases hsim : a.similitud < r.similitud
        · rw [if_pos hsim] at hx
          exact Or.inr hx
        · rw [if_neg hsim] at hx
          exact Or.inl (hx ▸ List.mem_cons_self a as)
      · exact Or.inl (List.mem_cons_of_mem a hx)
    · rw [if_neg h] at hx
      rcases List.mem_cons.mp hx with hx | hx
      · exact Or.inl (hx ▸ List.mem_cons_self a as)
      · rcases ih x hx with h1 | h1
        · exact Or.inl (List.mem_cons_of_mem a h1)
        · exact Or.inr h1

theorem actualizar_clave (r : BuscadorSemantico.ResultadoBusqueda) :
    ∀ (acc : List BuscadorSemantico.ResultadoBusqueda),
      ∃ x ∈ BuscadorSemantico.actualizarCombinados r acc,
        x.documento.id_hash = r.documento.id_hash ∧ r.similitud ≤ x.similitud := by
  intro acc
  induction acc with
  | nil =>
    exact ⟨r, by simp [BuscadorSemantico.actualizarCombinados], rfl, le_refl _⟩
  | cons a as ih =>
    simp only [BuscadorSemantico.actualizarCombinados]
    by_cases h : a.documento.id_hash = r.documento.id_hash
    · rw [if_pos h]
      by_cases hsim : a.similitud < r.similitud
      · rw [if_pos hsim]
        exact ⟨r, List.mem_cons_self r as, rfl, le_refl _⟩
      · rw [if_neg hsim]
        exact ⟨a, List.mem_cons_self a as, h, not_lt.mp hsim⟩
    · rw [if_neg h]
      obtain ⟨x, hx, hk, hs⟩ := ih
      exact ⟨x, List.mem_cons_of_mem a hx, hk, hs⟩

theorem actualizar_conserva (r : BuscadorSemantico.ResultadoBusqueda) :
    ∀ (acc : List BuscadorSemantico.ResultadoBusqueda), ∀ x ∈ acc,
      ∃ y ∈ BuscadorSemantico.actualizarCombinados r acc,
        y.documento.id_hash = x.documento.id_hash ∧ x.similitud ≤ y.similitud := by
  intro acc
  induction acc with
  | nil => intro x hx; exact absurd hx (List.not_mem_nil x)
  | cons a as ih =>
    intro x hx
    simp only [BuscadorSemantico.actualizarCombinados]
    by_cases h : a.documento.id_hash = r.documento.id_hash
    · rw [if_pos h]
      rcases List.mem_cons.mp hx with hx | hx
      · subst hx
        by_cases hsim : x.similitud < r.similitud
        · rw [if_pos hsim]
          exact ⟨r, List.mem_cons_self r as, h.symm, le_of_lt hsim⟩
        · rw [if_neg hsim]
          exact ⟨x, List.mem_cons_self x as, rfl, le_refl _⟩
      · refine ⟨x, List.mem_cons_of_mem _ hx, rfl, le_refl _⟩
    · rw [if_neg h]
      rcases List.mem_cons.mp hx with hx | hx
      · subst hx
        exact ⟨x, List.mem_cons_self x _, rfl, le_refl _⟩
      · obtain ⟨y, hy, hk, hs⟩ := ih x hx
        exact ⟨y, List.mem_cons_of_mem a hy, hk, hs⟩

theorem actualizar_claves_unicas (r : BuscadorSemantico.ResultadoBusqueda) :
    ∀ (acc : List BuscadorSemantico.ResultadoBusqueda),
      acc.Pairwise (fun a b => a.documento.id_hash ≠ b.documento.id_hash) →
      (BuscadorSemantico.actualizarCombinados r acc).Pairwise
        (fun a b => a.documento.id_hash ≠ b.documento.id_hash) := by
  intro acc
  induction acc with
  | nil =>
    intro _
    simp [BuscadorSemantico.actualizarCombinados]
  | cons a as ih =>
    intro hp
    rw [List.pairwise_cons] at hp
    obtain ⟨ha, has⟩ := hp
    simp only [BuscadorSemantico.actualizarCombinados]
    by_cases h : a.documento.id_hash = r.documento.id_hash
    · rw [if_pos h]
      rw [List.pairwise_cons]
      constructor
      · intro b hb
        by_cases hsim : a.similitud < r.similitud
        · rw [if_pos hsim]
          rw [← h]
          exact ha b hb
        · rw [if_neg hsim]
          exact ha b hb
      · exact has
    · rw [if_neg h]
      rw [List.pairwise_cons]
      constructor
      · intro b hb
        rcases actualizar_mem r as b hb with h1 | h1
        · exact ha b h1
        · rw [h1]
          exact h
      · exact ih has

theorem combinar_fold_mem :
    ∀ (entradas acc : List BuscadorSemantico.ResultadoBusqueda),
      ∀ x ∈ entradas.foldl (fun acc r => BuscadorSemantico.actualizarCombinados r acc) acc,
        x ∈ acc ∨ x ∈ entradas := by
  intro entradas
  induction entradas with
  | nil => intro acc x hx; exact Or.inl hx
  | cons e es ih =>
    intro acc x hx
    simp only [List.foldl_cons] at hx
    rcases ih (BuscadorSemantico.actualizarCombinados e acc) x hx with h1 | h1
    · rcases actualizar_mem e acc x h1 with h2 | h2
      · exact Or.inl h2
      · exact Or.inr (h2 ▸ List.mem_cons_self e es)
    · exact Or.inr (List.mem_cons_of_mem e h1)

theorem combinar_fold_conserva :
    ∀ (entradas acc : List BuscadorSemantico.ResultadoBusqueda), ∀ x ∈ acc,
      ∃ y ∈ entradas.foldl (fun acc r => BuscadorSemantico.actualizarCombinados r acc) acc,
        y.documento.id_hash = x.documento.id_hash ∧ x.similitud ≤ y.similitud := by
  intro entradas
  induction entradas with
  | nil => intro acc x hx; exact ⟨x, hx, rfl, le_refl _⟩
  | cons e es ih =>
    intro acc x hx
    simp only [List.foldl_cons]
    obtain ⟨y, hy, hk, hs⟩ := actualizar_conserva e acc x hx
    obtain ⟨z, hz, hk2, hs2⟩ := ih (BuscadorSemantico.actualizarCombinados e acc) y hy
    exact ⟨z, hz, hk2.trans hk, hs.trans hs2⟩

theorem combinar_fold_cubre :
    ∀ (entradas acc : List BuscadorSemantico.ResultadoBusqueda), ∀ r ∈ entradas,
      ∃ y ∈ entradas.foldl (fun acc r => BuscadorSemantico.actualizarCombinados r acc) acc,
        y.documento.id_hash = r.documento.id_hash ∧ r.similitud ≤ y.similitud := by
  intro entradas
  induction entradas with
  | nil => intro acc r hr; exact absurd hr (List.not_mem_nil r)
  | cons e es ih =>
    intro acc r hr
    simp only [List.foldl_cons]
    rcases List.mem_cons.mp hr with hr | hr
    · subst hr
      obtain ⟨y, hy, hk, hs⟩ := actualizar_clave r acc
      obtain ⟨z, hz, hk2, hs2⟩ :=
        combinar_fold_conserva es (BuscadorSemantico.actualizarCombinados r acc) y hy
      exact ⟨z, hz, hk2.trans hk, hs.trans hs2⟩
    · exact ih (BuscadorSemantico.actualizarCombinados e acc) r hr

theorem combinar_fold_claves_unicas :
    ∀ (entradas acc : List BuscadorSemantico.ResultadoBusqueda),
      acc.Pairwise (fun a b => a.documento.id_hash ≠ b.documento.id_hash) →
      (entradas.foldl (fun acc r => BuscadorSemantico.actualizarCombinados r acc) acc).Pairwise
        (fun a b => a.documento.id_hash ≠ b.documento.id_hash) := by
  intro entradas
  induction entradas with
  | nil => intro acc h; exact h
  | cons e es ih =>
    intro acc h
    simp only [List.foldl_cons]
    exact ih _ (actualizar_claves_unicas e acc h)

/-- C3: hybrid-search fusion keys results by the record's stable key
(`id_hash`): every key reaching the merge keeps exactly one entry, that
entry is one of the input entries and scores at least every input entry
with the same key (hence exactly the higher score when a key appears in
both paths, and the sole score when it appears in one); the final answer
is the merged set sorted descending by score and truncated to the
requested limit. -/
theorem c3_fusion_hibrida (texto semanticos : List BuscadorSemantico.ResultadoBusqueda)
    (limite : Nat) :
    (∀ r ∈ texto ++ semanticos,
      ∃ y ∈ BuscadorSemantico.combinarResultados texto semanticos,
        y.documento.id_hash = r.documento.id_hash ∧ r.similitud ≤ y.similitud) ∧
    (∀ y ∈ BuscadorSemantico.combinarResultados texto semanticos, y ∈ texto ++ semanticos) ∧
    (BuscadorSemantico.combinarResultados texto semanticos).Pairwise
      (fun a b => a.documento.id_hash ≠ b.documento.id_hash) ∧
    BuscadorSemantico.buscar_hibrida texto semanticos limite =
      (BuscadorSemantico.ordenarPorSimilitud
        (BuscadorSemantico.combinarResultados texto semanticos)).take limite ∧
    (BuscadorSemantico.buscar_hibrida texto semanticos limite).Pairwise
      (fun a b => b.similitud ≤ a.similitud) ∧
    (BuscadorSemantico.buscar_hibrida texto semanticos limite).length ≤ limite := by
  refine ⟨?_, ?_, ?_, rfl, ?_, ?_⟩
  · intro r hr
    exact combinar_fold_cubre (texto ++ semanticos) [] r hr
  · intro y hy
    rcases combinar_fold_mem (texto ++ semanticos) [] y hy with h | h
    · exact absurd h (List.not_mem_nil y)
    · exact h
  · exact combinar_fold_claves_unicas (texto ++ semanticos) [] List.Pairwise.nil
  · have hs : (BuscadorSemantico.ordenarPorSimilitud
        (BuscadorSemantico.combinarResultados texto semanticos)).Pairwise
        (fun a b => b.similitud ≤ a.similitud) := by
      have := @List.sorted_mergeSort BuscadorSemantico.ResultadoBusqueda
        (fun a b => decide (b.similitud ≤ a.similitud))
        (fun a b c hab hbc => by
          simp only [decide_eq_true_eq] at hab hbc ⊢
          exact le_trans hbc hab)
        (fun a b => by
          simp only [Bool.or_eq_true, decide_eq_true_eq]
          exact le_total b.similitud a.similitud)
        (BuscadorSemantico.combinarResultados texto semanticos)
      refine this.imp ?_
      intro a b hab
      simpa using hab
    exact hs.sublist (List.take_sublist _ _)
  · simpa [BuscadorSemantico.buscar_hibrida] using
      List.length_take_le limite
        (BuscadorSemantico.ordenarPorSimilitud
          (BuscadorSemantico.combinarResultados texto semanticos))

/-- Witness for C3: with a text result and a vector result for the same
record scoring 0.4 and 0.9, the fused list contains exactly one entry
for that record, with score 0.9. -/
theorem c3_fusion_hibrida_witness :
    (∃ y ∈ BuscadorSemantico.combinarResultados
        [⟨documentoEjemplo, 4 / 10, "texto"⟩] [⟨documentoEjemplo, 9 / 10, "semántica"⟩],
      y.documento.id_hash = documentoEjemplo.id_hash ∧ (4 : Rat) / 10 ≤ y.similitud) ∧
    BuscadorSemantico.buscar_hibrida [⟨documentoEjemplo, 4 / 10, "texto"⟩]
        [⟨documentoEjemplo, 9 / 10, "semántica"⟩] 10 =
      [⟨documentoEjemplo, 9 / 10, "semántica"⟩] := by
  constructor
  · have h := (c3_fusion_hibrida [⟨documentoEjemplo, 4 / 10, "texto"⟩]
      [⟨documentoEjemplo, 9 / 10, "semántica"⟩] 10).1
      ⟨documentoEjemplo, 4 / 10, "texto"⟩ (by simp)
    simpa using h
  · with_unfolding_all decide

/-- C7: when the embedding call and the MongoDB write of embedding plus
description succeed and the Qdrant write (insert or update, whichever
the existence probe selects) fails, `procesar_documento` logs the
warning, still returns the document updated with description and
embedding, issues exactly one Qdrant write attempt (no synchronous
retry), and the batch record loop counts such a record as a success. -/
theorem c7_escritura_qdrant_mejor_esfuerzo
    (crearTexto : ImagenDocumento → String) (env : BuscadorSemantico.EntornoProceso)
    (documento : ImagenDocumento) (embedding : List Rat) (existe : Bool) (ex er : Nat)
    (hEmbed : env.embedResultado = some embedding)
    (hMongo : env.mongoExito = true)
    (hConsulta : env.qdrantConsulta = .ok existe)
    (hEscritura : env.qdrantEscrituraExito = false) :
    (BuscadorSemantico.procesar_documento crearTexto env documento false false false).resultado =
      .ok { documento with
              descripcion_semantica := some (crearTexto documento)
              embedding := some embedding } ∧
    (BuscadorSemantico.procesar_documento crearTexto env documento false false false).avisoQdrant =
      true ∧
    BuscadorSemantico.escriturasQdrant
      (BuscadorSemantico.procesar_documento crearTexto env documento false false false).eventos = 1 ∧
    BatchProcessor.procesarRegistros
      (fun d =>
        match (BuscadorSemantico.procesar_documento crearTexto env d false false false).resultado with
        | .ok _ => true
        | .error _ => false)
      (fun _ => false) [documento] ex er = .inl (ex + 1, er) := by
  cases existe <;>
    simp [BuscadorSemantico.procesar_documento, BuscadorSemantico.escriturasQdrant,
      BatchProcessor.procesarRegistros, hEmbed, hMongo, hConsulta, hEscritura]

/-- Witness for C7: a concrete environment in which retrieval reports the
point missing and the insert into Qdrant fails, applied to the example
record starting from zero counters. -/
theorem c7_escritura_qdrant_mejor_esfuerzo_witness :
    (BuscadorSemantico.procesar_documento (fun _ => "texto compuesto")
        ⟨some [1], true, .ok false, false⟩ documentoEjemplo false false false).resultado =
      .ok { documentoEjemplo with
              descripcion_semantica := some "texto compuesto"
              embedding := some [1] } ∧
    (BuscadorSemantico.procesar_documento (fun _ => "texto compuesto")
        ⟨some [1], true, .ok false, false⟩ documentoEjemplo false false false).avisoQdrant = true :=
  ⟨(c7_escritura_qdrant_mejor_esfuerzo (fun _ => "texto compuesto")
      ⟨some [1], true, .ok false, false⟩ documentoEjemplo [1] false 0 0 rfl rfl rfl rfl).1,
   (c7_escritura_qdrant_mejor_esfuerzo (fun _ => "texto compuesto")
      ⟨some [1], true, .ok false, false⟩ documentoEjemplo [1] false 0 0 rfl rfl rfl rfl).2.1⟩

theorem chunksOf_sum_length {bs : Nat} (hbs : 0 < bs) (l : List α) :
    ((chunksOf bs l).map List.length).sum = l.length := by
  suffices h : ∀ (n : Nat) (l : List α), l.length ≤ n →
      ((chunksOf bs l).map List.length).sum = l.length from h l.length l le_rfl
  intro n
  induction n with
  | zero =>
    intro l hl
    have : l = [] := List.eq_nil_of_length_eq_zero (Nat.le_zero.mp hl)
    subst this
    simp [chunksOf_nil]
  | succ n ih =>
    intro l hl
    cases l with
    | nil => simp [chunksOf_nil]
    | cons x xs =>
      rw [chunksOf_cons hbs _ (by simp)]
      simp only [List.map_cons, List.sum_cons]
      rw [ih _ (by simp only [List.length_drop, List.length_cons] at *; omega)]
      simp only [List.length_take, List.length_drop, List.length_cons]
      omega

theorem registros_sin_cancelacion (exito : ImagenDocumento → Bool) :
    ∀ (l : List ImagenDocumento) (ex er : Nat),
      ∃ ex2 er2,
        BatchProcessor.procesarRegistros exito (fun _ => false) l ex er = .inl (ex2, er2) ∧
        ex2 + er2 = ex + er + l.length := by
  intro l
  induction l with
  | nil => exact fun ex er => ⟨ex, er, rfl, by simp⟩
  | cons d ds ih =>
    intro ex er
    simp only [BatchProcessor.procesarRegistros, if_false, Bool.false_eq_true]
    by_cases hd : exito d = true
    · rw [if_pos hd]
      obtain ⟨ex2, er2, heq, hsum⟩ := ih (ex + 1) er
      exact ⟨ex2, er2, heq, by simp only [List.length_cons]; omega⟩
    · rw [if_neg hd]
      obtain ⟨ex2, er2, heq, hsum⟩ := ih ex (er + 1)
      exact ⟨ex2, er2, heq, by simp only [List.length_cons]; omega⟩

theorem lotes_sin_cancelacion (exito : ImagenDocumento → Bool) :
    ∀ (lotes : List (List ImagenDocumento)) (ps ex er : Nat),
      (BatchProcessor.procesarLotes exito (fun _ => false) lotes ps ex er).cancelado = none ∧
      (BatchProcessor.procesarLotes exito (fun _ => false) lotes ps ex er).total_procesados =
        ps + (lotes.map List.length).sum ∧
      (BatchProcessor.procesarLotes exito (fun _ => false) lotes ps ex er).total_exitosos +
        (BatchProcessor.procesarLotes exito (fun _ => false) lotes ps ex er).total_errores =
        ex + er + (lotes.map List.length).sum := by
  intro lotes
  induction lotes with
  | nil => exact fun ps ex er => ⟨rfl, by simp [BatchProcessor.procesarLotes], by simp [BatchProcessor.procesarLotes]⟩
  | cons lote resto ih =>
    intro ps ex er
    simp only [BatchProcessor.procesarLotes, if_false, Bool.false_eq_true]
    obtain ⟨ex2, er2, heq, hsum⟩ := registros_sin_cancelacion exito lote ex er
    rw [heq]
    obtain ⟨h1, h2, h3⟩ := ih (ps + lote.length) ex2 er2
    refine ⟨h1, ?_, ?_⟩
    · rw [h2]
      simp only [List.map_cons, List.sum_cons]
      omega
    · rw [h3]
      simp only [List.map_cons, List.sum_cons]
      omega

/-- C10: with the cancellation callback omitted the code substitutes a
callback that always answers `False`, so the returned dict never carries
the `cancelado` key; on completion the attempted counter equals the
candidate count and successes plus failures account for every record. -/
theorem c10_procesamiento_sin_callback (documentos : List ImagenDocumento)
    (batch_size : Nat) (exito : ImagenDocumento → Bool) (hbs : 0 < batch_size) :
    (BatchProcessor.procesar_coleccion_sin_callback documentos batch_size exito).cancelado =
      none ∧
    (BatchProcessor.procesar_coleccion_sin_callback documentos batch_size exito).total_procesados =
      documentos.length ∧
    (BatchProcessor.procesar_coleccion_sin_callback documentos batch_size exito).total_exitosos +
      (BatchProcessor.procesar_coleccion_sin_callback documentos batch_size
        exito).total_errores = documentos.length := by
  unfold BatchProcessor.procesar_coleccion_sin_callback BatchProcessor.procesar_coleccion_completa
  by_cases hd : documentos.length = 0
  · rw [if_pos hd]
    exact ⟨rfl, hd.symm, by simp [hd]⟩
  · rw [if_neg hd]
    obtain ⟨h1, h2, h3⟩ := lotes_sin_cancelacion exito (chunksOf batch_size documentos) 0 0 0
    rw [chunksOf_sum_length hbs] at h2 h3
    exact ⟨h1, by omega, by omega⟩

/-- Witness for C10: the example record processed with the default
callback and chunk size 50 completes without the `cancelado` key and
with one attempted record. -/
theorem c10_procesamiento_sin_callback_witness :
    (BatchProcessor.procesar_coleccion_sin_callback [documentoEjemplo] 50
      (fun _ => true)).cancelado = none ∧
    (BatchProcessor.procesar_coleccion_sin_callback [documentoEjemplo] 50
      (fun _ => true)).total_procesados = 1 :=
  ⟨(c10_procesamiento_sin_callback [documentoEjemplo] 50 (fun _ => true) (by decide)).1,
   (c10_procesamiento_sin_callback [documentoEjemplo] 50 (fun _ => true) (by decide)).2.1⟩

theorem registros_cancelacion (exito : ImagenDocumento → Bool) (k : Nat)
    (hexito : ∀ d, exito d = true) :
    ∀ (l : List ImagenDocumento) (ex : Nat), ex ≤ k →
      BatchProcessor.procesarRegistros exito (fun n => decide (k ≤ n)) l ex 0 =
        if ex + l.length ≤ k then .inl (ex + l.length, 0) else .inr (k, 0) := by
  intro l
  induction l with
  | nil =>
    intro ex hex
    rw [if_pos (by simpa using hex)]
    simp [BatchProcessor.procesarRegistros]
  | cons d ds ih =>
    intro ex hex
    simp only [BatchProcessor.procesarRegistros, Nat.add_zero]
    by_cases hke : k ≤ ex
    · have hxk : ex = k := Nat.le_antisymm hex hke
      have hdec : decide (k ≤ ex) = true := decide_eq_true hke
      have hcond : ¬(ex + (d :: ds).length ≤ k) := by
        simp only [List.length_cons]
        omega
      rw [if_pos hdec, if_neg hcond, hxk]
    · have hdec : ¬(decide (k ≤ ex) = true) := by simpa using hke
      rw [if_neg hdec, hexito d, if_pos rfl, ih (ex + 1) (by omega)]
      by_cases hfits : ex + 1 + ds.length ≤ k
      · have hcond : ex + (d :: ds).length ≤ k := by
          simp only [List.length_cons]
          omega
        rw [if_pos hfits, if_pos hcond]
        simp only [Sum.inl.injEq, Prod.mk.injEq, List.length_cons, and_true]
        omega
      · have hcond : ¬(ex + (d :: ds).length ≤ k) := by
          simp only [List.length_cons]
          omega
        rw [if_neg hfits, if_neg hcond]

theorem lotes_cancelacion (exito : ImagenDocumento → Bool) (k : Nat) {bs : Nat}
    (hexito : ∀ d, exito d = true) (hbs : 0 < bs) :
    ∀ (n : Nat) (docs : List ImagenDocumento), docs.length ≤ n →
      ∀ (ps ex : Nat), ex = ps → ex ≤ k → k < ex + docs.length →
      BatchProcessor.procesarLotes exito (fun m => decide (k ≤ m)) (chunksOf bs docs) ps ex 0 =
        BatchProcessor.resultadoCancelacion (ex + bs * ((k - ex) / bs)) k 0 := by
  intro n
  induction n with
  | zero =>
    intro docs hd ps ex hpe hex hk
    have : docs = [] := List.eq_nil_of_length_eq_zero (Nat.le_zero.mp hd)
    subst this
    simp only [List.length_nil] at hk
    omega
  | succ n ih =>
    intro docs hd ps ex hpe hex hk
    cases docs with
    | nil =>
      simp only [List.length_nil] at hk
      omega
    | cons x xs =>
      rw [chunksOf_cons hbs _ (by simp)]
      simp only [BatchProcessor.procesarLotes, Nat.add_zero]
      by_cases hke : k ≤ ex
      · have hdec : decide (k ≤ ex) = true := decide_eq_true hke
        rw [if_pos hdec]
        have hxk : ex = k := Nat.le_antisymm hex hke
        subst hpe
        rw [hxk]
        simp
      · have hdec : ¬(decide (k ≤ ex) = true) := by simpa using hke
        rw [if_neg hdec]
        have hreg := registros_cancelacion exito k hexito ((x :: xs).take bs) ex hex
        by_cases hfull : ex + ((x :: xs).take bs).length ≤ k
        · rw [if_pos hfull] at hreg
          rw [hreg]
          dsimp only
          have hbsle : bs ≤ xs.length + 1 := by
            by_contra hcon
            push_neg at hcon
            have htk : ((x :: xs).take bs).length = xs.length + 1 := by
              simp only [List.length_take, List.length_cons]
              omega
            rw [htk] at hfull
            simp only [List.length_cons] at hk
            omega
          have htk : ((x :: xs).take bs).length = bs := by
            simp only [List.length_take, List.length_cons]
            omega
          rw [ih ((x :: xs).drop bs)
            (by simp only [List.length_drop, List.length_cons] at *; omega)
            (ps + ((x :: xs).take bs).length) (ex + ((x :: xs).take bs).length)
            (by rw [hpe]) hfull
            (by simp only [List.length_drop, List.length_cons] at *; omega)]
          rw [htk] at hfull ⊢
          have hle : bs ≤ k - ex := by omega
          rw [show k - (ex + bs) = k - ex - bs from by omega,
            Nat.div_eq_sub_div hbs hle]
          have harith : ex + bs + bs * ((k - ex - bs) / bs) =
              ex + bs * ((k - ex - bs) / bs + 1) := by ring
          rw [harith]
        · rw [if_neg hfull] at hreg
          rw [hreg]
          dsimp only
          have hlt : k - ex < bs := by
            have hle : ((x :: xs).take bs).length ≤ bs := by
              simp [List.length_take]
            omega
          rw [Nat.div_eq_of_lt hlt, Nat.mul_zero, Nat.add_zero, hpe]

/-- C2: on a candidate set of `N` records that all process successfully,
with a cancellation signal that becomes set once `k` records have been
fully processed (`k < N`), the batch stops at the next cancellation
check: the returned dict is the cancellation dict with `cancelado=True`,
`total_exitosos = k`, no errors, and `total_procesados` counting the
fully completed chunks (the code adds a chunk to that counter only after
finishing it). -/
theorem c2_cancelacion_exacta (documentos : List ImagenDocumento) (batch_size k : Nat)
    (exito : ImagenDocumento → Bool) (hbs : 0 < batch_size)
    (hk : k < documentos.length) (hexito : ∀ d, exito d = true) :
    BatchProcessor.procesar_coleccion_completa documentos batch_size exito
        (fun m => decide (k ≤ m)) =
      BatchProcessor.resultadoCancelacion (batch_size * (k / batch_size)) k 0 ∧
    (BatchProcessor.procesar_coleccion_completa documentos batch_size exito
        (fun m => decide (k ≤ m))).total_exitosos = k ∧
    (BatchProcessor.procesar_coleccion_completa documentos batch_size exito
        (fun m => decide (k ≤ m))).total_errores = 0 ∧
    (BatchProcessor.procesar_coleccion_completa documentos batch_size exito
        (fun m => decide (k ≤ m))).cancelado = some true := by
  have hmain : BatchProcessor.procesar_coleccion_completa documentos batch_size exito
      (fun m => decide (k ≤ m)) =
      BatchProcessor.resultadoCancelacion (batch_size * (k / batch_size)) k 0 := by
    unfold BatchProcessor.procesar_coleccion_completa
    rw [if_neg (by omega)]
    have h := lotes_cancelacion exito k hexito hbs documentos.length documentos le_rfl
      0 0 rfl (Nat.zero_le k) (by omega)
    simpa using h
  exact ⟨hmain, by rw [hmain]; rfl, by rw [hmain]; rfl, by rw [hmain]; rfl⟩

/-- Witness for C2: three copies of the example record, chunk size 2,
cancellation set after one completed record: the run returns the
cancellation dict with one success, no errors, and no completed chunk. -/
theorem c2_cancelacion_exacta_witness :
    BatchProcessor.procesar_coleccion_completa
        [documentoEjemplo, documentoEjemplo, documentoEjemplo] 2 (fun _ => true)
        (fun m => decide (1 ≤ m)) =
      BatchProcessor.resultadoCancelacion 0 1 0 :=
  (c2_cancelacion_exacta [documentoEjemplo, documentoEjemplo, documentoEjemplo] 2 1
    (fun _ => true) (by decide) (by simp) (fun _ => rfl)).1

theorem mongo_valido_indep_hash (ex : Bool) (cont : Option J) (sha1 sha2 : String)
    (t1 t2 : Nat) :
    (DatabaseManager.validar_backup ⟨ex, cont, sha1, t1⟩).valido =
      (DatabaseManager.validar_backup ⟨ex, cont, sha2, t2⟩).valido := by
  cases ex
  · rfl
  · cases cont with
    | none => rfl
    | some j =>
      cases j with
      | null => rfl
      | num n => rfl
      | str s => rfl
      | jbool b => rfl
      | arr l => rfl
      | obj raiz =>
        simp only [DatabaseManager.validar_backup]
        cases hm : jGet raiz "metadata" with
        | none => cases hd : jGet raiz "documents" <;> rfl
        | some m =>
          cases hd : jGet raiz "documents" with
          | none => cases m <;> rfl
          | some d =>
            cases m with
            | obj metadata =>
              cases d with
              | arr documentos =>
                dsimp only
                cases hc : DatabaseManager.primerCampoFaltante metadata
                    DatabaseManager.camposRequeridosMongo with
                | some campo => rfl
                | none =>
                  cases hq : pyEqNat ((jGet metadata "total_documents").getD J.null)
                      documentos.length with
                  | false => rfl
                  | true =>
                    cases hdocs : DatabaseManager.primerDocumentoInvalido documentos 0 with
                    | some m2 => rfl
                    | none => rfl
              | null => rfl
              | num n => rfl
              | str s => rfl
              | jbool b => rfl
              | obj o => rfl
            | null => cases d <;> rfl
            | num n => cases d <;> rfl
            | str s => cases d <;> rfl
            | jbool b => cases d <;> rfl
            | arr l => cases d <;> rfl

theorem qdrant_valido_indep_hash (ex : Bool) (cont : Option J) (sha1 sha2 : String)
    (t1 t2 : Nat) :
    (QdrantManager.validar_backup ⟨ex, cont, sha1, t1⟩).valido =
      (QdrantManager.validar_backup ⟨ex, cont, sha2, t2⟩).valido := by
  cases ex
  · rfl
  · cases cont with
    | none => rfl
    | some j =>
      cases j with
      | null => rfl
      | num n => rfl
      | str s => rfl
      | jbool b => rfl
      | arr l => rfl
      | obj raiz =>
        simp only [QdrantManager.validar_backup]
        cases hm : jGet raiz "metadata" with
        | none => cases hd : jGet raiz "vectors" <;> rfl
        | some m =>
          cases hd : jGet raiz "vectors" with
          | none => cases m <;> rfl
          | some d =>
            cases m with
            | obj metadata =>
              cases d with
              | arr vectores =>
                dsimp only
                cases hc : DatabaseManager.primerCampoFaltante metadata
                    QdrantManager.camposRequeridosQdrant with
                | some campo => rfl
                | none =>
                  cases hq : pyEqNat ((jGet metadata "total_vectors").getD J.null)
                      vectores.length with
                  | false => rfl
                  | true => rfl
              | null => rfl
              | num n => rfl
              | str s => rfl
              | jbool b => rfl
              | obj o => rfl
            | null => cases d <;> rfl
            | num n => cases d <;> rfl
            | str s => cases d <;> rfl
            | jbool b => cases d <;> rfl
            | arr l => cases d <;> rfl

/-- Counterexample to C4: the claim states the validators recompute the
content hash for comparison and that a corrupted artifact is never
reported valid; but the artifact carries no stored hash to compare
against, the recomputed digest is only reported, and a corruption that
changes stored field values (hence the raw bytes and their SHA-256)
while preserving structure, manifest and count is reported valid by both
validators. -/
theorem c4_validacion_contraejemplo :
    (DatabaseManager.validar_backup backupEjemplo).valido = true ∧
    (DatabaseManager.validar_backup backupCorrupto).valido = true ∧
    backupEjemplo.contenido ≠ backupCorrupto.contenido ∧
    backupEjemplo.sha256hex ≠ backupCorrupto.sha256hex ∧
    (DatabaseManager.validar_backup backupCorrupto).hash_sha256 =
      some backupCorrupto.sha256hex ∧
    (QdrantManager.validar_backup backupQdrantEjemplo).valido = true ∧
    (QdrantManager.validar_backup backupQdrantCorrupto).valido = true ∧
    backupQdrantEjemplo.sha256hex ≠ backupQdrantCorrupto.sha256hex := by
  refine ⟨rfl, rfl, ?_, by decide, rfl, rfl, rfl, by decide⟩
  intro h
  simp only [backupEjemplo, backupCorrupto] at h
  simp at h

theorem mongo_inconsistencia_recuento (raiz metadata : List (String × J))
    (documentos : List J) (sha : String) (t : Nat)
    (hm : jGet raiz "metadata" = some (J.obj metadata))
    (hd : jGet raiz "documents" = some (J.arr documentos))
    (hc : DatabaseManager.primerCampoFaltante metadata
      DatabaseManager.camposRequeridosMongo = none)
    (hq : pyEqNat ((jGet metadata "total_documents").getD J.null) documentos.length = false) :
    DatabaseManager.validar_backup ⟨true, some (J.obj raiz), sha, t⟩ =
      ⟨false, some ("Inconsistencia: metadata indica " ++
        jTexto ((jGet metadata "total_documents").getD J.null) ++
        " documentos pero archivo contiene " ++ toString documentos.length), none, none⟩ := by
  simp [DatabaseManager.validar_backup, hm, hd, hc, hq]

theorem mongo_campo_faltante (raiz metadata : List (String × J))
    (documentos : List J) (sha : String) (t : Nat) (campo : String)
    (hm : jGet raiz "metadata" = some (J.obj metadata))
    (hd : jGet raiz "documents" = some (J.arr documentos))
    (hc : DatabaseManager.primerCampoFaltante metadata
      DatabaseManager.camposRequeridosMongo = some campo) :
    DatabaseManager.validar_backup ⟨true, some (J.obj raiz), sha, t⟩ =
      ⟨false, some ("Campo requerido faltante en metadata: " ++ campo), none, none⟩ := by
  simp [DatabaseManager.validar_backup, hm, hd, hc]

theorem qdrant_inconsistencia_recuento (raiz metadata : List (String × J))
    (vectores : List J) (sha : String) (t : Nat)
    (hm : jGet raiz "metadata" = some (J.obj metadata))
    (hd : jGet raiz "vectors" = some (J.arr vectores))
    (hc : DatabaseManager.primerCampoFaltante metadata
      QdrantManager.camposRequeridosQdrant = none)
    (hq : pyEqNat ((jGet metadata "total_vectors").getD J.null) vectores.length = false) :
    QdrantManager.validar_backup ⟨true, some (J.obj raiz), sha, t⟩ =
      ⟨false, some ("Inconsistencia: metadata indica " ++
        jTexto ((jGet metadata "total_vectors").getD J.null) ++
        " vectores pero archivo contiene " ++ toString vectores.length), none, none⟩ := by
  simp [QdrantManager.validar_backup, hm, hd, hc, hq]

/-- C4 as amended: both validators check manifest presence, required
manifest fields, and declared count against actual count, and each
mismatch yields an invalid verdict with its specific reason; the content
hash is recomputed and reported in the result, but no comparison exists
(the artifact stores no expected hash), so the verdict is a function of
existence and parsed structure alone, independent of the raw bytes
digest. -/
theorem c4_validacion_enmendada :
    (∀ (ex : Bool) (cont : Option J) (sha1 sha2 : String) (t1 t2 : Nat),
      (DatabaseManager.validar_backup ⟨ex, cont, sha1, t1⟩).valido =
        (DatabaseManager.validar_backup ⟨ex, cont, sha2, t2⟩).valido ∧
      (QdrantManager.validar_backup ⟨ex, cont, sha1, t1⟩).valido =
        (QdrantManager.validar_backup ⟨ex, cont, sha2, t2⟩).valido) ∧
    (∀ (raiz metadata : List (String × J)) (documentos : List J) (sha : String) (t : Nat),
      jGet raiz "metadata" = some (J.obj metadata) →
      jGet raiz "documents" = some (J.arr documentos) →
      DatabaseManager.primerCampoFaltante metadata
        DatabaseManager.camposRequeridosMongo = none →
      pyEqNat ((jGet metadata "total_documents").getD J.null) documentos.length = false →
      DatabaseManager.validar_backup ⟨true, some (J.obj raiz), sha, t⟩ =
        ⟨false, some ("Inconsistencia: metadata indica " ++
          jTexto ((jGet metadata "total_documents").getD J.null) ++
          " documentos pero archivo contiene " ++ toString documentos.length),
          none, none⟩) ∧
    (∀ (raiz metadata : List (String × J)) (documentos : List J) (sha : String) (t : Nat)
      (campo : String),
      jGet raiz "metadata" = some (J.obj metadata) →
      jGet raiz "documents" = some (J.arr documentos) →
      DatabaseManager.primerCampoFaltante metadata
        DatabaseManager.camposRequeridosMongo = some campo →
      DatabaseManager.validar_backup ⟨true, some (J.obj raiz), sha, t⟩ =
        ⟨false, some ("Campo requerido faltante en metadata: " ++ campo), none, none⟩) ∧
    (∀ (raiz metadata : List (String × J)) (vectores : List J) (sha : String) (t : Nat),
      jGet raiz "metadata" = some (J.obj metadata) →
      jGet raiz "vectors" = some (J.arr vectores) →
      DatabaseManager.primerCampoFaltante metadata
        QdrantManager.camposRequeridosQdrant = none →
      pyEqNat ((jGet metadata "total_vectors").getD J.null) vectores.length = false →
      QdrantManager.validar_backup ⟨true, some (J.obj raiz), sha, t⟩ =
        ⟨false, some ("Inconsistencia: metadata indica " ++
          jTexto ((jGet metadata "total_vectors").getD J.null) ++
          " vectores pero archivo contiene " ++ toString vectores.length), none, none⟩) ∧
    (DatabaseManager.validar_backup backupEjemplo).hash_sha256 =
      some backupEjemplo.sha256hex := by
  refine ⟨?_, mongo_inconsistencia_recuento, mongo_campo_faltante,
    qdrant_inconsistencia_recuento, rfl⟩
  intro ex cont sha1 sha2 t1 t2
  exact ⟨mongo_valido_indep_hash ex cont sha1 sha2 t1 t2,
    qdrant_valido_indep_hash ex cont sha1 sha2 t1 t2⟩

/-- Witness for C4 as amended: an artifact whose manifest declares two
documents while the array holds one is rejected with the specific count
mismatch reason. -/
theorem c4_validacion_enmendada_witness :
    DatabaseManager.validar_backup
      ⟨true, some (J.obj
        [("metadata", J.obj
          [("collection_name", .str "imagenes_2"),
           ("database_name", .str "album"),
           ("backup_date", .str "2026-01-01T00:00:00"),
           ("total_documents", .num 2)]),
         ("documents", J.arr [J.obj [("_id", .str "a1")]])]), "caf3", 99⟩ =
      ⟨false, some "Inconsistencia: metadata indica 2 documentos pero archivo contiene 1",
        none, none⟩ := by
  have h := c4_validacion_enmendada.2.1
    [("metadata", J.obj
      [("collection_name", .str "imagenes_2"),
       ("database_name", .str "album"),
       ("backup_date", .str "2026-01-01T00:00:00"),
       ("total_documents", .num 2)]),
     ("documents", J.arr [J.obj [("_id", .str "a1")]])]
    [("collection_name", .str "imagenes_2"),
     ("database_name", .str "album"),
     ("backup_date", .str "2026-01-01T00:00:00"),
     ("total_documents", .num 2)]
    [J.obj [("_id", .str "a1")]] "caf3" 99 rfl rfl rfl (by decide)
  rw [h]
  rfl
